import Mathlib

/-!
Shallow embedding of the SPI-mode SD card block driver
(`Drivers/sd_card/Src/sd_functions.c`, driver part `sd_spi.c`, with its
header `sd_spi.h`).

Modelling conventions
- Machine integers are `Nat`; 32-bit wrap-around is written explicitly as
  `% 2 ^ 32` (`u32`), and a byte read from the wire is normalised `% 256`
  (the C variables have type `uint8_t`).
- The SPI bus is an oracle: a list of `SpiByte` records, one per HAL
  transaction (one per single-byte exchange, and one per whole-buffer
  transmit/receive, whose received payload is the `blk` field).  The `hal`
  field is the HAL return code of that transaction.
- Everything the driver drives onto the wire (chip-select edges,
  transmitted bytes, block transfers, backoff delays) is recorded in an
  event trace, so theorems can talk about what was "sent on the wire".
- Millisecond deadlines (`HAL_GetTick()` loops) are modelled by fuel:
  every loop iteration ends in the driver's ~1 ms `SD_BackoffDelay()`, so
  a deadline of `t` ms is a fuel of `t` further iterations after the
  first.  The `for (retry...)` loops are exact counts, not fuel.
- FreeRTOS locking is an environment input: the public operations take the
  `SD_Lock` outcome as a parameter (`SD_OK`, or `SD_BUSY` on
  timeout/ISR-context, or `SD_ERROR` on a missing mutex).
- The card-detect GPIO is an environment input `pinSet` (true iff the pin
  reads `GPIO_PIN_SET`).
- Data buffers are not modelled byte-for-byte; a buffer argument is
  abstracted by whether the pointer is NULL (`buffNull`) and whether it is
  DMA-aligned (`buffAligned`), which is all the control flow inspects.
-/

namespace SdSpi

/-- `SD_Status` from `sd_spi.h`. -/
inductive SD_Status where
  | SD_OK
  | SD_ERROR
  | SD_TIMEOUT
  | SD_BUSY
  | SD_PARAM
  | SD_NO_MEDIA
  | SD_CRC_ERROR
  | SD_WRITE_ERROR
  | SD_UNSUPPORTED
deriving DecidableEq, Repr

open SD_Status

/-- `HAL_StatusTypeDef` (STM32 HAL return codes). -/
inductive HAL_StatusTypeDef where
  | HAL_OK
  | HAL_ERROR
  | HAL_BUSY
  | HAL_TIMEOUT
deriving DecidableEq, Repr

open HAL_StatusTypeDef

/-- `SD_FromHalStatus` (sd_spi.c): map a HAL code to a driver status. -/
def SD_FromHalStatus : HAL_StatusTypeDef → SD_Status
  | HAL_OK => SD_OK
  | HAL_TIMEOUT => SD_TIMEOUT
  | _ => SD_ERROR

/-- 32-bit unsigned wrap-around. -/
def u32 (n : Nat) : Nat := n % 2 ^ 32

/- Configuration constants from `sd_spi.h` (defaults). -/

def SD_BLOCK_SIZE : Nat := 512

def SD_SPI_IO_TIMEOUT_MS : Nat := 50

def SD_CMD_TIMEOUT_MS : Nat := 100

def SD_DATA_TOKEN_TIMEOUT_MS : Nat := 200

def SD_WRITE_BUSY_TIMEOUT_MS : Nat := 500

def SD_INIT_TIMEOUT_MS : Nat := 1000

def SD_MAX_RETRIES : Nat := 2

/- Command indices (`sd_spi.h` and `sd_spi.c`). -/

def CMD0 : Nat := 0

def CMD8 : Nat := 8

def CMD17 : Nat := 17

def CMD24 : Nat := 24

def CMD55 : Nat := 55

def CMD58 : Nat := 58

def ACMD41 : Nat := 41

def SD_CMD9 : Nat := 9

def SD_CMD12 : Nat := 12

def SD_CMD16 : Nat := 16

def SD_CMD18 : Nat := 18

def SD_CMD25 : Nat := 25

/- Tokens and data-response constants (`sd_spi.c`). -/

def SD_TOKEN_START_BLOCK : Nat := 0xFE

def SD_TOKEN_START_MULTI_WRITE : Nat := 0xFC

def SD_TOKEN_STOP_TRAN : Nat := 0xFD

def SD_DATA_RESP_MASK : Nat := 0x1F

def SD_DATA_RESP_ACCEPTED : Nat := 0x05

def SD_DATA_RESP_CRC_ERR : Nat := 0x0B

def SD_DATA_RESP_WRITE_ERR : Nat := 0x0D

/-- One HAL SPI transaction as seen from the driver: the HAL return code,
the byte clocked in on MISO (for single-byte exchanges) and the received
payload (for whole-buffer receives). -/
structure SpiByte where
  hal : HAL_StatusTypeDef
  b : Nat := 0
  blk : List Nat := []
deriving DecidableEq, Repr

/-- Observable wire/driver events, in order. -/
inductive Ev where
  | select
  | deselect
  | tx (b : Nat)
  | rx (b : Nat)
  | txBlock (len : Nat) (dma : Bool)
  | rxBlock (len : Nat) (dma : Bool)
  | backoff
deriving DecidableEq, Repr

/-- Driver-external state threaded through every SPI operation: the
un-consumed bus oracle and the event trace so far. -/
structure St where
  bus : List SpiByte
  tr : List Ev
deriving DecidableEq, Repr

/-- Consume the next bus transaction (a HAL error if the oracle is
exhausted). -/
def spiNext (s : St) : SpiByte × St :=
  match s.bus with
  | [] => (⟨HAL_ERROR, 0, []⟩, s)
  | e :: rest => (e, { s with bus := rest })

/-- `SD_Select`: drive CS low. -/
def SD_Select (s : St) : St := { s with tr := s.tr ++ [Ev.select] }

/-- `SD_Deselect`: drive CS high. -/
def SD_Deselect (s : St) : St := { s with tr := s.tr ++ [Ev.deselect] }

/-- `SD_BackoffDelay`: ~1 ms delay (vTaskDelay / HAL_Delay). -/
def SD_BackoffDelay (s : St) : St := { s with tr := s.tr ++ [Ev.backoff] }

/-- `SD_TransmitByte`: one-byte polled transmit. -/
def SD_TransmitByte (b : Nat) (s : St) : SD_Status × St :=
  let p := spiNext s
  (SD_FromHalStatus p.1.hal, { p.2 with tr := p.2.tr ++ [Ev.tx b] })

/-- `SD_ReceiveByte` / `SD_ReceiveByteTimeout`: one-byte exchange with a
0xFF filler on MOSI; returns the MISO byte. -/
def SD_ReceiveByte (s : St) : SD_Status × Nat × St :=
  let p := spiNext s
  (SD_FromHalStatus p.1.hal, p.1.b % 256,
    { p.2 with tr := p.2.tr ++ [Ev.rx (p.1.b % 256)] })

/-- `SD_SPI_Transmit`: whole-buffer transmit (DMA if `use_dma`, else
polled; the DMA completion/timeout outcome is folded into the oracle's
HAL code). -/
def SD_SPI_Transmit (len : Nat) (use_dma : Bool) (s : St) : SD_Status × St :=
  let p := spiNext s
  (SD_FromHalStatus p.1.hal, { p.2 with tr := p.2.tr ++ [Ev.txBlock len use_dma] })

/-- `SD_SPI_TransmitReceive`: whole-buffer full-duplex exchange; the
received bytes are the oracle element's `blk` payload (normalised to
`uint8_t`). -/
def SD_SPI_TransmitReceive (len : Nat) (use_dma : Bool) (s : St) :
    SD_Status × List Nat × St :=
  let p := spiNext s
  (SD_FromHalStatus p.1.hal, p.1.blk.map (· % 256),
    { p.2 with tr := p.2.tr ++ [Ev.rxBlock len use_dma] })

/-- The body of `SD_WaitReady`'s do/while loop: receive one byte, succeed
on 0xFF, `SD_ERROR` on a failed receive, otherwise back off ~1 ms and
retry while the `timeout_ms` deadline (the fuel) has not passed. -/
def waitReadyGo : Nat → St → SD_Status × St
  | 0, s =>
    let p := SD_ReceiveByte s
    if p.1 ≠ SD_OK then (SD_ERROR, p.2.2)
    else if p.2.1 = 0xFF then (SD_OK, p.2.2)
    else (SD_TIMEOUT, SD_BackoffDelay p.2.2)
  | f + 1, s =>
    let p := SD_ReceiveByte s
    if p.1 ≠ SD_OK then (SD_ERROR, p.2.2)
    else if p.2.1 = 0xFF then (SD_OK, p.2.2)
    else waitReadyGo f (SD_BackoffDelay p.2.2)

/-- `SD_WaitReady` (sd_spi.c): poll until the card returns 0xFF, bounded
by `timeout_ms`. -/
def SD_WaitReady (timeout_ms : Nat) (s : St) : SD_Status × St :=
  waitReadyGo timeout_ms s

/-- The body of `SD_WaitDataToken`'s do/while loop (success on the
start-block token 0xFE). -/
def waitDataTokenGo : Nat → St → SD_Status × St
  | 0, s =>
    let p := SD_ReceiveByte s
    if p.1 ≠ SD_OK then (SD_ERROR, p.2.2)
    else if p.2.1 = SD_TOKEN_START_BLOCK then (SD_OK, p.2.2)
    else (SD_TIMEOUT, SD_BackoffDelay p.2.2)
  | f + 1, s =>
    let p := SD_ReceiveByte s
    if p.1 ≠ SD_OK then (SD_ERROR, p.2.2)
    else if p.2.1 = SD_TOKEN_START_BLOCK then (SD_OK, p.2.2)
    else waitDataTokenGo f (SD_BackoffDelay p.2.2)

/-- `SD_WaitDataToken` (sd_spi.c). -/
def SD_WaitDataToken (timeout_ms : Nat) (s : St) : SD_Status × St :=
  waitDataTokenGo timeout_ms s

/-- The response-poll loop at the end of `SD_SendCommand`: up to 10
receives, succeeding at the first byte with bit 7 clear.  Returns the R1
byte on success, and otherwise leaves the caller's `response` variable
(`r0`) unchanged. -/
def respPollGo : Nat → Nat → St → SD_Status × Nat × St
  | 0, r0, s => (SD_TIMEOUT, r0, s)
  | n + 1, r0, s =>
    let p := SD_ReceiveByte s
    if p.1 ≠ SD_OK then (SD_ERROR, r0, p.2.2)
    else if p.2.1 &&& 0x80 = 0 then (SD_OK, p.2.1, p.2.2)
    else respPollGo n r0 p.2.2

/-- `SD_SendCommand` (sd_spi.c lines 586-614): wait for ready with the
`SD_CMD_TIMEOUT_MS` deadline, transmit one dummy 0xFF and then the 6-byte
packet `0x40|cmd, arg[31:24..7:0], crc`, then poll up to 10 times for an
R1 byte (MSB clear).  `response` is the caller's response variable; it is
only overwritten on success. -/
def SD_SendCommand (cmd arg crc response : Nat) (s : St) : SD_Status × Nat × St :=
  let w := SD_WaitReady SD_CMD_TIMEOUT_MS s
  if w.1 ≠ SD_OK then (w.1, response, w.2)
  else
  let t0 := SD_TransmitByte 0xFF w.2
  if t0.1 ≠ SD_OK then (SD_ERROR, response, t0.2)
  else
  let t1 := SD_TransmitByte (0x40 ||| cmd) t0.2
  if t1.1 ≠ SD_OK then (SD_ERROR, response, t1.2)
  else
  let t2 := SD_TransmitByte (arg >>> 24 % 256) t1.2
  if t2.1 ≠ SD_OK then (SD_ERROR, response, t2.2)
  else
  let t3 := SD_TransmitByte (arg >>> 16 % 256) t2.2
  if t3.1 ≠ SD_OK then (SD_ERROR, response, t3.2)
  else
  let t4 := SD_TransmitByte (arg >>> 8 % 256) t3.2
  if t4.1 ≠ SD_OK then (SD_ERROR, response, t4.2)
  else
  let t5 := SD_TransmitByte (arg % 256) t4.2
  if t5.1 ≠ SD_OK then (SD_ERROR, response, t5.2)
  else
  let t6 := SD_TransmitByte crc t5.2
  if t6.1 ≠ SD_OK then (SD_ERROR, response, t6.2)
  else respPollGo 10 response t6.2

/-- `SD_Stats` (sd_spi.h): monotonic `uint32_t` counters. -/
structure SD_Stats where
  read_ops : Nat
  write_ops : Nat
  read_blocks : Nat
  write_blocks : Nat
  init_attempts : Nat
  error_count : Nat
  timeout_count : Nat
deriving DecidableEq, Repr

/-- All-zero statistics (the `memset` image). -/
def zeroStats : SD_Stats := ⟨0, 0, 0, 0, 0, 0, 0⟩

/-- `SD_Handle_t` (sd_spi.h), restricted to the fields the driver's
control flow and the observable behaviour depend on.  The peripheral
pointers (`hspi`, `cs_port`/`cs_pin`, `cd_port`/`cd_pin`), the DMA done
flags and the FreeRTOS semaphore handles are environment-side and are
modelled as oracle inputs instead. -/
structure SD_Handle where
  has_cd : Bool
  cd_active_low : Bool
  initialized : Bool
  is_sdhc : Bool
  use_dma : Bool
  last_status : SD_Status
  capacity_blocks : Nat
  block_size : Nat
  stats : SD_Stats
deriving DecidableEq, Repr

/-- `SD_RecordStatus` (sd_spi.c lines 356-367): store `status` in
`last_status`, bump `error_count` on any non-OK status and
`timeout_count` on `SD_TIMEOUT`, and hand `status` back. -/
def SD_RecordStatus (h : SD_Handle) (status : SD_Status) : SD_Status × SD_Handle :=
  (status,
    { h with
      last_status := status
      stats :=
        { h.stats with
          error_count :=
            if status ≠ SD_OK then u32 (h.stats.error_count + 1)
            else h.stats.error_count
          timeout_count :=
            if status = SD_TIMEOUT then u32 (h.stats.timeout_count + 1)
            else h.stats.timeout_count } })

/-- `SD_IsCardPresent` (sd_spi.c lines 982-991): false for a NULL handle,
true when no card-detect pin is configured, otherwise the card-detect
GPIO level (`pinSet` = the pin reads `GPIO_PIN_SET`) interpreted through
the configured polarity. -/
def SD_IsCardPresent (h : Option SD_Handle) (pinSet : Bool) : Bool :=
  match h with
  | none => false
  | some hh =>
    if ¬ hh.has_cd then true
    else if hh.cd_active_low then !pinSet else pinSet

/-- The address translation used by all four block I/O entry points
(`sd_handle->is_sdhc ? sector : (sector * SD_BLOCK_SIZE)`, `uint32_t`
arithmetic). -/
def sd_effectiveAddress (is_sdhc : Bool) (sector : Nat) : Nat :=
  if is_sdhc then sector else u32 (sector * SD_BLOCK_SIZE)

/-- `SD_ReadSingleBlockInternal` (sd_spi.c lines 691-722). -/
def SD_ReadSingleBlockInternal (h : SD_Handle) (buffAligned : Bool)
    (address : Nat) (s : St) : SD_Status × St :=
  let s0 := SD_Select s
  let c := SD_SendCommand CMD17 address 0xFF 0xFF s0
  if c.1 ≠ SD_OK ∨ c.2.1 ≠ 0x00 then
    let s1 := SD_Deselect c.2.2
    (SD_ERROR, (SD_TransmitByte 0xFF s1).2)
  else
  let w := SD_WaitDataToken SD_DATA_TOKEN_TIMEOUT_MS c.2.2
  if w.1 ≠ SD_OK then
    let s1 := SD_Deselect w.2
    (w.1, (SD_TransmitByte 0xFF s1).2)
  else
  let use_dma := h.use_dma && buffAligned
  let d := SD_SPI_TransmitReceive SD_BLOCK_SIZE use_dma w.2
  if d.1 ≠ SD_OK then
    let s1 := SD_Deselect d.2.2
    (d.1, (SD_TransmitByte 0xFF s1).2)
  else
  let crc := SD_SPI_TransmitReceive 2 false d.2.2
  let s1 := SD_Deselect crc.2.2
  (SD_OK, (SD_TransmitByte 0xFF s1).2)

/-- `SD_WriteSingleBlockInternal` (sd_spi.c lines 724-758). -/
def SD_WriteSingleBlockInternal (h : SD_Handle) (buffAligned : Bool)
    (address : Nat) (s : St) : SD_Status × St :=
  let s0 := SD_Select s
  let c := SD_SendCommand CMD24 address 0xFF 0xFF s0
  if c.1 ≠ SD_OK ∨ c.2.1 ≠ 0x00 then
    let s1 := SD_Deselect c.2.2
    (SD_ERROR, (SD_TransmitByte 0xFF s1).2)
  else
  let tk := SD_TransmitByte SD_TOKEN_START_BLOCK c.2.2
  let use_dma := h.use_dma && buffAligned
  let d := SD_SPI_Transmit SD_BLOCK_SIZE use_dma tk.2
  if d.1 ≠ SD_OK then
    let s1 := SD_Deselect d.2
    (d.1, (SD_TransmitByte 0xFF s1).2)
  else
  let f1 := SD_TransmitByte 0xFF d.2
  let f2 := SD_TransmitByte 0xFF f1.2
  let r := SD_ReceiveByte f2.2
  if r.2.1 &&& SD_DATA_RESP_MASK ≠ SD_DATA_RESP_ACCEPTED then
    let s1 := SD_Deselect r.2.2
    ((if r.2.1 = SD_DATA_RESP_CRC_ERR then SD_CRC_ERROR else SD_WRITE_ERROR),
      (SD_TransmitByte 0xFF s1).2)
  else
  let w := SD_WaitReady SD_WRITE_BUSY_TIMEOUT_MS r.2.2
  let s1 := SD_Deselect w.2
  (w.1, (SD_TransmitByte 0xFF s1).2)

/-- The per-block loop of `SD_ReadMultiBlocksInternal` (lines 780-798):
one data-token wait, one 512-byte receive and a 2-byte CRC drain per
block; the first failure breaks out. -/
def readMultiGo (use_dma : Bool) : Nat → St → SD_Status × St
  | 0, s => (SD_OK, s)
  | k + 1, s =>
    let w := SD_WaitDataToken SD_DATA_TOKEN_TIMEOUT_MS s
    if w.1 ≠ SD_OK then (w.1, w.2)
    else
    let d := SD_SPI_TransmitReceive SD_BLOCK_SIZE use_dma w.2
    if d.1 ≠ SD_OK then (d.1, d.2.2)
    else
    let crc := SD_SPI_TransmitReceive 2 false d.2.2
    readMultiGo use_dma k crc.2.2

/-- `SD_ReadMultiBlocksInternal` (sd_spi.c lines 760-805). -/
def SD_ReadMultiBlocksInternal (h : Option SD_Handle) (buffNull buffAligned : Bool)
    (sector count : Nat) (s : St) : SD_Status × St :=
  match h with
  | none => (SD_PARAM, s)
  | some hh =>
    if buffNull ∨ count = 0 then (SD_PARAM, s)
    else if ¬ hh.initialized then (SD_ERROR, s)
    else
    let address := sd_effectiveAddress hh.is_sdhc sector
    let s0 := SD_Select s
    let c := SD_SendCommand SD_CMD18 address 0xFF 0xFF s0
    if c.1 ≠ SD_OK ∨ c.2.1 ≠ 0x00 then
      let s1 := SD_Deselect c.2.2
      (SD_ERROR, (SD_TransmitByte 0xFF s1).2)
    else
    let use_dma := hh.use_dma && buffAligned
    let lp := readMultiGo use_dma count c.2.2
    let stop := SD_SendCommand SD_CMD12 0 0xFF c.2.1 lp.2
    let s1 := SD_Deselect stop.2.2
    (lp.1, (SD_TransmitByte 0xFF s1).2)

/-- The per-block loop of `SD_WriteMultiBlocksInternal` (lines 827-848):
multi-write start token, 512-byte payload, two CRC fillers, data-response
classification, busy wait; the first failure breaks out. -/
def writeMultiGo (use_dma : Bool) : Nat → St → SD_Status × St
  | 0, s => (SD_OK, s)
  | k + 1, s =>
    let tk := SD_TransmitByte SD_TOKEN_START_MULTI_WRITE s
    let d := SD_SPI_Transmit SD_BLOCK_SIZE use_dma tk.2
    if d.1 ≠ SD_OK then (d.1, d.2)
    else
    let f1 := SD_TransmitByte 0xFF d.2
    let f2 := SD_TransmitByte 0xFF f1.2
    let r := SD_ReceiveByte f2.2
    if r.2.1 &&& SD_DATA_RESP_MASK ≠ SD_DATA_RESP_ACCEPTED then
      ((if r.2.1 = SD_DATA_RESP_CRC_ERR then SD_CRC_ERROR else SD_WRITE_ERROR),
        r.2.2)
    else
    let w := SD_WaitReady SD_WRITE_BUSY_TIMEOUT_MS r.2.2
    if w.1 ≠ SD_OK then (w.1, w.2)
    else writeMultiGo use_dma k w.2

/-- `SD_WriteMultiBlocksInternal` (sd_spi.c lines 807-856).  After the
loop (broken or finished) the stop-tran token 0xFD is always sent and a
final busy wait is performed with its result discarded. -/
def SD_WriteMultiBlocksInternal (h : Option SD_Handle) (buffNull buffAligned : Bool)
    (sector count : Nat) (s : St) : SD_Status × St :=
  match h with
  | none => (SD_PARAM, s)
  | some hh =>
    if buffNull ∨ count = 0 then (SD_PARAM, s)
    else if ¬ hh.initialized then (SD_ERROR, s)
    else
    let address := sd_effectiveAddress hh.is_sdhc sector
    let s0 := SD_Select s
    let c := SD_SendCommand SD_CMD25 address 0xFF 0xFF s0
    if c.1 ≠ SD_OK ∨ c.2.1 ≠ 0x00 then
      let s1 := SD_Deselect c.2.2
      (SD_ERROR, (SD_TransmitByte 0xFF s1).2)
    else
    let use_dma := hh.use_dma && buffAligned
    let lp := writeMultiGo use_dma count c.2.2
    let stop := SD_TransmitByte SD_TOKEN_STOP_TRAN lp.2
    let wr := SD_WaitReady SD_WRITE_BUSY_TIMEOUT_MS stop.2
    let s1 := SD_Deselect wr.2
    (lp.1, (SD_TransmitByte 0xFF s1).2)

/-- `SD_ReadCSD` (sd_spi.c lines 616-648): CMD9, wait for the data token,
receive the 16 CSD bytes, drain 2 CRC bytes.  Returns the CSD payload. -/
def SD_ReadCSD (s : St) : SD_Status × List Nat × St :=
  let s0 := SD_Select s
  let c := SD_SendCommand SD_CMD9 0 0xFF 0xFF s0
  if c.1 ≠ SD_OK ∨ c.2.1 ≠ 0x00 then
    let s1 := SD_Deselect c.2.2
    (SD_ERROR, [], (SD_TransmitByte 0xFF s1).2)
  else
  let w := SD_WaitDataToken SD_DATA_TOKEN_TIMEOUT_MS c.2.2
  if w.1 ≠ SD_OK then
    let s1 := SD_Deselect w.2
    (w.1, [], (SD_TransmitByte 0xFF s1).2)
  else
  let d := SD_SPI_TransmitReceive 16 false w.2
  if d.1 ≠ SD_OK then
    let s1 := SD_Deselect d.2.2
    (d.1, [], (SD_TransmitByte 0xFF s1).2)
  else
  let c1 := SD_ReceiveByte d.2.2
  let c2 := SD_ReceiveByte c1.2.2
  let s1 := SD_Deselect c2.2.2
  (SD_OK, d.2.1, (SD_TransmitByte 0xFF s1).2)

/-- `SD_ParseCSD` (sd_spi.c lines 650-673): capacity in 512-byte blocks
from the 16 CSD bytes, dispatching on the CSD structure field (bits
[127:126]); all arithmetic is `uint32_t` (`u32`).  Byte accesses are
normalised `% 256` (`uint8_t` array). -/
def SD_ParseCSD (csd : List Nat) : Nat :=
  let b : Nat → Nat := fun i => csd.getD i 0 % 256
  let csd_structure := b 0 >>> 6 &&& 0x3
  if csd_structure = 1 then
    let c_size := ((b 7 &&& 0x3F) <<< 16) ||| (b 8 <<< 8) ||| b 9
    u32 ((c_size + 1) * 1024)
  else if csd_structure = 0 then
    let c_size := ((b 6 &&& 0x03) <<< 10) ||| (b 7 <<< 2) ||| (b 8 >>> 6)
    let c_size_mult := ((b 9 &&& 0x03) <<< 1) ||| (b 10 >>> 7 &&& 0x01)
    let read_bl_len := b 5 &&& 0x0F
    let block_len := 1 <<< read_bl_len
    let mult := 1 <<< (c_size_mult + 2)
    let blocknr := u32 ((c_size + 1) * mult)
    let capacity_bytes := u32 (blocknr * block_len)
    capacity_bytes / SD_BLOCK_SIZE
  else 0

/-- `SD_SetBlockLength` (sd_spi.c lines 675-689): CMD16 with arg 512. -/
def SD_SetBlockLength (s : St) : SD_Status × St :=
  let s0 := SD_Select s
  let c := SD_SendCommand SD_CMD16 SD_BLOCK_SIZE 0xFF 0xFF s0
  let s1 := SD_Deselect c.2.2
  let t := SD_TransmitByte 0xFF s1
  if c.1 ≠ SD_OK ∨ c.2.1 ≠ 0x00 then (SD_ERROR, t.2)
  else (SD_OK, t.2)

/-- The retry loop of `SD_ReadBlocks` for `count == 1` (lines 1137-1143):
`SD_MAX_RETRIES` further attempts after the first, a ~1 ms backoff after
every failed attempt, stop at the first `SD_OK`. -/
def readRetryGo (h : SD_Handle) (buffAligned : Bool) (address : Nat) :
    Nat → St → SD_Status × St
  | 0, s =>
    let a := SD_ReadSingleBlockInternal h buffAligned address s
    if a.1 = SD_OK then a else (a.1, SD_BackoffDelay a.2)
  | f + 1, s =>
    let a := SD_ReadSingleBlockInternal h buffAligned address s
    if a.1 = SD_OK then a
    else readRetryGo h buffAligned address f (SD_BackoffDelay a.2)

/-- The retry loop of `SD_WriteBlocks` for `count == 1` (lines
1206-1212). -/
def writeRetryGo (h : SD_Handle) (buffAligned : Bool) (address : Nat) :
    Nat → St → SD_Status × St
  | 0, s =>
    let a := SD_WriteSingleBlockInternal h buffAligned address s
    if a.1 = SD_OK then a else (a.1, SD_BackoffDelay a.2)
  | f + 1, s =>
    let a := SD_WriteSingleBlockInternal h buffAligned address s
    if a.1 = SD_OK then a
    else writeRetryGo h buffAligned address f (SD_BackoffDelay a.2)

/-- `SD_ReadBlocks` (sd_spi.c lines 1108-1150).  `lock` is the
environment's `SD_Lock` outcome, `pinSet` the card-detect GPIO level.
The `!sd_handle` NULL-handle guard returns `SD_PARAM` before touching the
handle and is the callers' wrapper concern; all remaining paths are
modelled here on a (non-NULL) handle. -/
def SD_ReadBlocks (h : SD_Handle) (buffNull buffAligned : Bool)
    (sector count : Nat) (pinSet : Bool) (lock : SD_Status) (s : St) :
    SD_Status × SD_Handle × St :=
  if buffNull ∨ count = 0 then
    let r := SD_RecordStatus h SD_PARAM
    (r.1, r.2, s)
  else if ¬ SD_IsCardPresent (some h) pinSet then
    let r := SD_RecordStatus { h with initialized := false } SD_NO_MEDIA
    (r.1, r.2, s)
  else if lock ≠ SD_OK then
    let r := SD_RecordStatus h lock
    (r.1, r.2, s)
  else if ¬ h.initialized then
    let r := SD_RecordStatus h SD_ERROR
    (r.1, r.2, s)
  else
    let h1 :=
      { h with stats :=
        { h.stats with
          read_ops := u32 (h.stats.read_ops + 1)
          read_blocks := u32 (h.stats.read_blocks + count) } }
    let address := sd_effectiveAddress h1.is_sdhc sector
    let io :=
      if count = 1 then readRetryGo h1 buffAligned address SD_MAX_RETRIES s
      else SD_ReadMultiBlocksInternal (some h1) buffNull buffAligned sector count s
    let r := SD_RecordStatus h1 io.1
    (r.1, r.2, io.2)

/-- `SD_ReadMultiBlocks` (sd_spi.c lines 1152-1175); unlike
`SD_ReadBlocks` it has no single-block retry and no `initialized` check
of its own (the internal provides the latter), and it counts statistics
before that internal check. -/
def SD_ReadMultiBlocks (h : SD_Handle) (buffNull buffAligned : Bool)
    (sector count : Nat) (pinSet : Bool) (lock : SD_Status) (s : St) :
    SD_Status × SD_Handle × St :=
  if buffNull ∨ count = 0 then
    let r := SD_RecordStatus h SD_PARAM
    (r.1, r.2, s)
  else if ¬ SD_IsCardPresent (some h) pinSet then
    let r := SD_RecordStatus { h with initialized := false } SD_NO_MEDIA
    (r.1, r.2, s)
  else if lock ≠ SD_OK then
    let r := SD_RecordStatus h lock
    (r.1, r.2, s)
  else
    let h1 :=
      { h with stats :=
        { h.stats with
          read_ops := u32 (h.stats.read_ops + 1)
          read_blocks := u32 (h.stats.read_blocks + count) } }
    let io := SD_ReadMultiBlocksInternal (some h1) buffNull buffAligned sector count s
    let r := SD_RecordStatus h1 io.1
    (r.1, r.2, io.2)

/-- `SD_WriteBlocks` (sd_spi.c lines 1177-1219). -/
def SD_WriteBlocks (h : SD_Handle) (buffNull buffAligned : Bool)
    (sector count : Nat) (pinSet : Bool) (lock : SD_Status) (s : St) :
    SD_Status × SD_Handle × St :=
  if buffNull ∨ count = 0 then
    let r := SD_RecordStatus h SD_PARAM
    (r.1, r.2, s)
  else if ¬ SD_IsCardPresent (some h) pinSet then
    let r := SD_RecordStatus { h with initialized := false } SD_NO_MEDIA
    (r.1, r.2, s)
  else if lock ≠ SD_OK then
    let r := SD_RecordStatus h lock
    (r.1, r.2, s)
  else if ¬ h.initialized then
    let r := SD_RecordStatus h SD_ERROR
    (r.1, r.2, s)
  else
    let h1 :=
      { h with stats :=
        { h.stats with
          write_ops := u32 (h.stats.write_ops + 1)
          write_blocks := u32 (h.stats.write_blocks + count) } }
    let address := sd_effectiveAddress h1.is_sdhc sector
    let io :=
      if count = 1 then writeRetryGo h1 buffAligned address SD_MAX_RETRIES s
      else SD_WriteMultiBlocksInternal (some h1) buffNull buffAligned sector count s
    let r := SD_RecordStatus h1 io.1
    (r.1, r.2, io.2)

/-- `SD_WriteMultiBlocks` (sd_spi.c lines 1221-1244). -/
def SD_WriteMultiBlocks (h : SD_Handle) (buffNull buffAligned : Bool)
    (sector count : Nat) (pinSet : Bool) (lock : SD_Status) (s : St) :
    SD_Status × SD_Handle × St :=
  if buffNull ∨ count = 0 then
    let r := SD_RecordStatus h SD_PARAM
    (r.1, r.2, s)
  else if ¬ SD_IsCardPresent (some h) pinSet then
    let r := SD_RecordStatus { h with initialized := false } SD_NO_MEDIA
    (r.1, r.2, s)
  else if lock ≠ SD_OK then
    let r := SD_RecordStatus h lock
    (r.1, r.2, s)
  else
    let h1 :=
      { h with stats :=
        { h.stats with
          write_ops := u32 (h.stats.write_ops + 1)
          write_blocks := u32 (h.stats.write_blocks + count) } }
    let io := SD_WriteMultiBlocksInternal (some h1) buffNull buffAligned sector count s
    let r := SD_RecordStatus h1 io.1
    (r.1, r.2, io.2)

/-- `SD_Sync` (sd_spi.c lines 1258-1282).  Note the order: the
`initialized` check comes before the card-presence check. -/
def SD_Sync (h : SD_Handle) (pinSet : Bool) (lock : SD_Status) (s : St) :
    SD_Status × SD_Handle × St :=
  if ¬ h.initialized then
    let r := SD_RecordStatus h SD_ERROR
    (r.1, r.2, s)
  else if ¬ SD_IsCardPresent (some h) pinSet then
    let r := SD_RecordStatus { h with initialized := false } SD_NO_MEDIA
    (r.1, r.2, s)
  else if lock ≠ SD_OK then
    let r := SD_RecordStatus h lock
    (r.1, r.2, s)
  else
    let s0 := SD_Select s
    let w := SD_WaitReady SD_WRITE_BUSY_TIMEOUT_MS s0
    let s1 := SD_Deselect w.2
    let t := SD_TransmitByte 0xFF s1
    let r := SD_RecordStatus h w.1
    (r.1, r.2, t.2)

/-- The cold-clock loop of `SD_SPI_Init` (lines 1018-1020): `n` dummy
0xFF bytes with CS deasserted, transmit statuses discarded. -/
def clockBytes : Nat → St → St
  | 0, s => s
  | n + 1, s => clockBytes n (SD_TransmitByte 0xFF s).2

/-- Four consecutive `SD_ReceiveByte` calls (the R7/OCR trailing payload
reads in `SD_SPI_Init`), statuses discarded. -/
def recv4 (s : St) : List Nat × St :=
  let b0 := SD_ReceiveByte s
  let b1 := SD_ReceiveByte b0.2.2
  let b2 := SD_ReceiveByte b1.2.2
  let b3 := SD_ReceiveByte b2.2.2
  ([b0.2.1, b1.2.1, b2.2.1, b3.2.1], b3.2.2)

/-- The CMD0 reset loop of `SD_SPI_Init` (lines 1027-1036): select, CMD0
with CRC 0x95, deselect + trailing 0xFF; break when the command succeeded
with R1 = 0x01, else back off ~1 ms while the `SD_INIT_TIMEOUT_MS`
deadline (the fuel) has not passed.  `r` is the shared `response`
variable (left untouched by failed commands). -/
def cmd0LoopGo : Nat → Nat → St → SD_Status × Nat × St
  | 0, r, s =>
    let s0 := SD_Select s
    let c := SD_SendCommand CMD0 0 0x95 r s0
    let s1 := SD_Deselect c.2.2
    let t := SD_TransmitByte 0xFF s1
    if c.1 = SD_OK ∧ c.2.1 = 0x01 then (c.1, c.2.1, t.2)
    else (c.1, c.2.1, SD_BackoffDelay t.2)
  | f + 1, r, s =>
    let s0 := SD_Select s
    let c := SD_SendCommand CMD0 0 0x95 r s0
    let s1 := SD_Deselect c.2.2
    let t := SD_TransmitByte 0xFF s1
    if c.1 = SD_OK ∧ c.2.1 = 0x01 then (c.1, c.2.1, t.2)
    else cmd0LoopGo f c.2.1 (SD_BackoffDelay t.2)

/-- The ACMD41 loop of `SD_SPI_Init` (lines 1056-1066): CMD55 (status
discarded) then ACMD41 with the HCS bit when `sdv2`; break when ACMD41
succeeded with R1 = 0x00. -/
def acmd41LoopGo (sdv2 : Bool) : Nat → Nat → St → SD_Status × Nat × St
  | 0, r, s =>
    let s0 := SD_Select s
    let c55 := SD_SendCommand CMD55 0 0xFF r s0
    let c := SD_SendCommand ACMD41 (if sdv2 then 0x40000000 else 0) 0xFF c55.2.1 c55.2.2
    let s1 := SD_Deselect c.2.2
    let t := SD_TransmitByte 0xFF s1
    if c.1 = SD_OK ∧ c.2.1 = 0x00 then (c.1, c.2.1, t.2)
    else (c.1, c.2.1, SD_BackoffDelay t.2)
  | f + 1, r, s =>
    let s0 := SD_Select s
    let c55 := SD_SendCommand CMD55 0 0xFF r s0
    let c := SD_SendCommand ACMD41 (if sdv2 then 0x40000000 else 0) 0xFF c55.2.1 c55.2.2
    let s1 := SD_Deselect c.2.2
    let t := SD_TransmitByte 0xFF s1
    if c.1 = SD_OK ∧ c.2.1 = 0x00 then (c.1, c.2.1, t.2)
    else acmd41LoopGo sdv2 f c.2.1 (SD_BackoffDelay t.2)

/-- The tail of `SD_SPI_Init` from the CSD read on (lines 1096-1105):
read and parse the CSD (capacity 0 if the read fails), set
`initialized := true`, record `SD_OK`. -/
def sdInitFinish (h3 : SD_Handle) (s : St) : SD_Status × SD_Handle × St :=
  let csd := SD_ReadCSD s
  let h4 :=
    if csd.1 = SD_OK then { h3 with capacity_blocks := SD_ParseCSD csd.2.1 }
    else { h3 with capacity_blocks := 0 }
  let h5 := { h4 with initialized := true }
  let r := SD_RecordStatus h5 SD_OK
  (r.1, r.2, csd.2.2)

/-- The capacity/type discovery part of `SD_SPI_Init` (lines 1073-1105),
entered after ACMD41 succeeded with `response` = `r` = 0x00: CMD58 + OCR
CCS bit for SDHC detection, CMD16(512) on SDSC, then the CSD tail. -/
def sdInitDiscover (h1 : SD_Handle) (r : Nat) (s : St) : SD_Status × SD_Handle × St :=
  let h2 := { h1 with is_sdhc := false }
  let s5 := SD_Select s
  let c58 := SD_SendCommand CMD58 0 0xFF r s5
  let ocrp :=
    if c58.1 = SD_OK ∧ c58.2.1 = 0x00 then
      let q := recv4 c58.2.2
      ((if q.1.getD 0 0 &&& 0x40 ≠ 0 then { h2 with is_sdhc := true } else h2), q.2)
    else (h2, c58.2.2)
  let h3 := ocrp.1
  let s6 := SD_Deselect ocrp.2
  let s7 := (SD_TransmitByte 0xFF s6).2
  let bl := if h3.is_sdhc then (SD_OK, s7) else SD_SetBlockLength s7
  if bl.1 ≠ SD_OK then
    let rr := SD_RecordStatus h3 bl.1
    (rr.1, rr.2, bl.2)
  else sdInitFinish h3 bl.2

/-- `SD_SPI_Init` (sd_spi.c lines 993-1106) on a non-NULL handle (the
`!sd_handle` guard returns `SD_PARAM` without touching anything and is
kept in the callers' wrappers): presence gate, `init_attempts` bump, lock,
cold clocks, CMD0 to idle, CMD8 voltage check, CMD55/ACMD41 loop, then
the discovery tail (`sdInitDiscover`). -/
def SD_SPI_Init (h : SD_Handle) (pinSet : Bool) (lock : SD_Status) (s : St) :
    SD_Status × SD_Handle × St :=
  if ¬ SD_IsCardPresent (some h) pinSet then
    let r := SD_RecordStatus { h with initialized := false } SD_NO_MEDIA
    (r.1, r.2, s)
  else
  let h0 :=
    { h with stats := { h.stats with init_attempts := u32 (h.stats.init_attempts + 1) } }
  if lock ≠ SD_OK then
    let r := SD_RecordStatus h0 lock
    (r.1, r.2, s)
  else
  let h1 := { h0 with initialized := false }
  let s0 := SD_Deselect s
  let s1 := clockBytes 10 s0
  let c0 := cmd0LoopGo SD_INIT_TIMEOUT_MS 0xFF s1
  if c0.2.1 ≠ 0x01 then
    let r := SD_RecordStatus h1 SD_ERROR
    (r.1, r.2, c0.2.2)
  else
  let s2 := SD_Select c0.2.2
  let c8 := SD_SendCommand CMD8 0x000001AA 0x87 c0.2.1 s2
  let r7p := if c8.1 = SD_OK then recv4 c8.2.2 else ([0, 0, 0, 0], c8.2.2)
  let s3 := SD_Deselect r7p.2
  let s4 := (SD_TransmitByte 0xFF s3).2
  let sdv2 : Bool :=
    decide (c8.1 = SD_OK ∧ c8.2.1 = 0x01 ∧ r7p.1.getD 2 0 = 0x01 ∧ r7p.1.getD 3 0 = 0xAA)
  let ac := acmd41LoopGo sdv2 SD_INIT_TIMEOUT_MS c8.2.1 s4
  if ac.2.1 ≠ 0x00 then
    let r := SD_RecordStatus h1 SD_TIMEOUT
    (r.1, r.2, ac.2.2)
  else sdInitDiscover h1 ac.2.1 ac.2.2

/-- `SD_Init` (sd_spi.c lines 908-943) on a non-NULL handle.  `hspiNull`
and `csPortNull` model the NULL checks on the peripheral arguments, and
`semOk` whether the FreeRTOS mutex/semaphore creation succeeded.  On the
parameter-rejection path the handle is returned untouched (the C code
returns before the `memset`). -/
def SD_Init (h : SD_Handle) (hspiNull csPortNull use_dma : Bool) (semOk : Bool) :
    SD_Status × SD_Handle :=
  if hspiNull ∨ csPortNull then (SD_PARAM, h)
  else
  let h0 : SD_Handle :=
    { has_cd := false
      cd_active_low := false
      initialized := false
      is_sdhc := false
      use_dma := use_dma
      last_status := SD_OK
      capacity_blocks := 0
      block_size := SD_BLOCK_SIZE
      stats := zeroStats }
  if ¬ semOk then SD_RecordStatus h0 SD_ERROR
  else (SD_OK, h0)

/-- `SD_IsSDHC` (sd_spi.c lines 1246-1248). -/
def SD_IsSDHC : Option SD_Handle → Bool
  | none => false
  | some h => h.is_sdhc

/-- `SD_IsInitialized` (sd_spi.c lines 1250-1252). -/
def SD_IsInitialized : Option SD_Handle → Bool
  | none => false
  | some h => h.initialized

/-- `SD_GetBlockCount` (sd_spi.c lines 1254-1256). -/
def SD_GetBlockCount : Option SD_Handle → Nat
  | none => 0
  | some h => h.capacity_blocks

/-- `SD_GetStats` (sd_spi.c lines 1284-1289): copy the statistics into
the caller's out-struct; a NULL handle or NULL out-pointer leaves the
destination untouched.  `out` is the memory behind the out-pointer
(`none` models a NULL pointer). -/
def SD_GetStats (h : Option SD_Handle) (out : Option SD_Stats) : Option SD_Stats :=
  match h, out with
  | some hh, some _ => some hh.stats
  | _, _ => out

/-- `SD_ResetStats` (sd_spi.c lines 1291-1296). -/
def SD_ResetStats : Option SD_Handle → Option SD_Handle
  | none => none
  | some h => some { h with stats := zeroStats }

/-- The 7 bytes `SD_SendCommand` drives after the ready wait: one dummy
0xFF, then the 6-byte command packet `0x40|cmd, arg[31:24], arg[23:16],
arg[15:8], arg[7:0], crc` (as trace events). -/
def cmdPacket (cmd arg crc : Nat) : List Ev :=
  [Ev.tx 0xFF, Ev.tx (0x40 ||| cmd), Ev.tx (arg >>> 24 % 256),
   Ev.tx (arg >>> 16 % 256), Ev.tx (arg >>> 8 % 256), Ev.tx (arg % 256),
   Ev.tx crc]

/-- Every `SD_SendCommand` call site in sd_spi.c, as `(cmd, crc)` pairs,
in source order: `SD_ReadCSD`, `SD_SetBlockLength`, the four block I/O
internals (CMD17, CMD24, CMD18 and CMD12, CMD25), and the init sequence
(CMD0, CMD8, CMD55, ACMD41, CMD58). -/
def driverCmdCrcTable : List (Nat × Nat) :=
  [(SD_CMD9, 0xFF), (SD_CMD16, 0xFF), (CMD17, 0xFF), (CMD24, 0xFF),
   (SD_CMD18, 0xFF), (SD_CMD12, 0xFF), (SD_CMD25, 0xFF),
   (CMD0, 0x95), (CMD8, 0x87), (CMD55, 0xFF), (ACMD41, 0xFF), (CMD58, 0xFF)]

/-- Modelled from the claim (C5), spec side: the CSD capacity formula in
exact (unbounded) arithmetic, with the fields written as plain
arithmetic on the bytes: CSD v2 (structure bit 1) gives
`(C_SIZE + 1) * 1024` with C_SIZE the 22-bit field from the low 6 bits of
byte 7 and all of bytes 8 and 9; CSD v1 (structure bit 0) gives
`((C_SIZE + 1) * 2^(C_SIZE_MULT+2) * 2^READ_BL_LEN) / 512`; any other
structure value gives 0. -/
def spec_csd_capacity_exact (csd : List Nat) : Nat :=
  let b : Nat → Nat := fun i => csd.getD i 0 % 256
  let structure_bits := b 0 / 64 % 4
  if structure_bits = 1 then
    let c_size := b 7 % 64 * 65536 + b 8 * 256 + b 9
    (c_size + 1) * 1024
  else if structure_bits = 0 then
    let c_size := b 6 % 4 * 1024 + b 7 * 4 + b 8 / 64
    let c_size_mult := b 9 % 4 * 2 + b 10 / 128 % 2
    let read_bl_len := b 5 % 16
    (c_size + 1) * 2 ^ (c_size_mult + 2) * 2 ^ read_bl_len / 512
  else 0

/-- The claim's capacity formula amended with the `uint32_t` wrap the
code actually computes in: the products are reduced mod `2^32` before the
final division by 512 (v1) and as the final value (v2). -/
def spec_csd_capacity_mod32 (csd : List Nat) : Nat :=
  let b : Nat → Nat := fun i => csd.getD i 0 % 256
  let structure_bits := b 0 / 64 % 4
  if structure_bits = 1 then
    let c_size := b 7 % 64 * 65536 + b 8 * 256 + b 9
    (c_size + 1) * 1024 % 2 ^ 32
  else if structure_bits = 0 then
    let c_size := b 6 % 4 * 1024 + b 7 * 4 + b 8 / 64
    let c_size_mult := b 9 % 4 * 2 + b 10 / 128 % 2
    let read_bl_len := b 5 % 16
    (c_size + 1) * 2 ^ (c_size_mult + 2) * 2 ^ read_bl_len % 2 ^ 32 / 512
  else 0

/- Bus fixtures used by the concrete scenarios in the theorems below. -/

/-- A successful transaction with nothing of interest on MISO. -/
def okB : SpiByte := { hal := HAL_OK }

/-- A successful transaction whose MISO byte is `b`. -/
def rB (b : Nat) : SpiByte := { hal := HAL_OK, b := b }

/-- A card returning "ready" (0xFF). -/
def rdy : SpiByte := rB 0xFF

/-- A failed (HAL error) transaction. -/
def errB : SpiByte := { hal := HAL_ERROR }

/-- The 9 bus transactions consumed by one `SD_SendCommand` when the card
is immediately ready and answers with R1 = `resp` at the first poll:
one ready read, seven transmits, one response read. -/
def seqCmdOk (resp : Nat) : List SpiByte :=
  [rdy, okB, okB, okB, okB, okB, okB, okB, rB resp]

/-- Bus list for a CMD24 single-block write whose data response byte is
`r` and whose busy wait then succeeds: command phase (9), start token,
512-byte payload, two CRC fillers, the data response `r`, the busy-wait
ready byte, the trailing 0xFF. -/
def busWSlist (r : Nat) : List SpiByte :=
  seqCmdOk 0x00 ++ [okB, okB, okB, okB, rB r, rdy, okB]

/-- `busWSlist` as a fresh driver state. -/
def busWS (r : Nat) : St := { bus := busWSlist r, tr := [] }

/-- Bus list for a CMD25 multi-block write of one block whose data
response byte is `r`: command phase (9), start token, payload, two
fillers, the response `r`, then enough bytes for the busy waits, the stop
token and the trailing 0xFF on either branch. -/
def busWMlist (r : Nat) : List SpiByte :=
  seqCmdOk 0x00 ++ [okB, okB, okB, okB, rB r, rdy, rdy, rdy, rdy]

/-- `busWMlist` as a fresh driver state. -/
def busWM (r : Nat) : St := { bus := busWMlist r, tr := [] }

/-- Bus for one fully successful CMD17 single-block read: command phase,
data token, 512-byte block, 2 CRC bytes, trailing 0xFF. -/
def busRS : List SpiByte := seqCmdOk 0x00 ++ [rB 0xFE, okB, okB, okB]

/-- Bus for one fully successful CMD24 single-block write
(`busWS 0x05` as a plain list). -/
def busWSok : List SpiByte := seqCmdOk 0x00 ++ [okB, okB, okB, okB, rB 0x05, rdy, okB]

/-- Bus for a fully successful CMD18 read of two blocks, ending with the
CMD12 stop command and the trailing 0xFF. -/
def busRM2 : List SpiByte :=
  seqCmdOk 0x00 ++ [rB 0xFE, okB, okB] ++ [rB 0xFE, okB, okB] ++ seqCmdOk 0x00 ++ [okB]

/-- Bus for a fully successful CMD25 write of two blocks, ending with the
stop-tran token, the final busy wait and the trailing 0xFF. -/
def busWM2 : List SpiByte :=
  seqCmdOk 0x00 ++ [okB, okB, okB, okB, rB 0x05, rdy]
    ++ [okB, okB, okB, okB, rB 0x05, rdy] ++ [okB, rdy, okB]

/-- Bus for one failed CMD17/CMD24 attempt: the command succeeds but the
card answers R1 = 0x04 (illegal command), so the internal returns
`SD_ERROR` after deselect + trailing 0xFF. -/
def busAttemptFail : List SpiByte := seqCmdOk 0x04 ++ [okB]

/-- Bus for a CMD18 multi-block read whose first data-token wait fails
with a HAL error: the loop breaks at block 1, CMD12 is still issued. -/
def busMRtokErr : List SpiByte := seqCmdOk 0x00 ++ [errB] ++ seqCmdOk 0x00 ++ [okB]

/-- Bus for a CMD25 multi-block write whose first block gets data
response 0x0D (write error): the loop breaks at block 1, the stop token
is still sent. -/
def busMWrej : List SpiByte :=
  seqCmdOk 0x00 ++ [okB, okB, okB, okB, rB 0x0D] ++ [okB, rdy, okB]

/-- The events of `n` failed (non-0xFF, non-error) ready polls: each is
one receive of a 0x00 byte followed by the ~1 ms backoff. -/
def busyEvs : Nat → List Ev
  | 0 => []
  | n + 1 => [Ev.rx 0, Ev.backoff] ++ busyEvs n

/-- The event trace of one successful CMD17 single-block read at address
`address` (`dma` = the DMA decision `use_dma && aligned`). -/
def readSingleEvs (address : Nat) (dma : Bool) : List Ev :=
  [Ev.select, Ev.rx 0xFF] ++ cmdPacket CMD17 address 0xFF
    ++ [Ev.rx 0x00, Ev.rx 0xFE, Ev.rxBlock SD_BLOCK_SIZE dma,
        Ev.rxBlock 2 false, Ev.deselect, Ev.tx 0xFF]

/-- The event trace of one successful CMD24 single-block write at address
`address`. -/
def writeSingleEvs (address : Nat) (dma : Bool) : List Ev :=
  [Ev.select, Ev.rx 0xFF] ++ cmdPacket CMD24 address 0xFF
    ++ [Ev.rx 0x00, Ev.tx SD_TOKEN_START_BLOCK, Ev.txBlock SD_BLOCK_SIZE dma,
        Ev.tx 0xFF, Ev.tx 0xFF, Ev.rx 0x05, Ev.rx 0xFF, Ev.deselect, Ev.tx 0xFF]

/-- The event trace of one failed CMD17 attempt against `busAttemptFail`
(R1 = 0x04 at address `address`). -/
def readFailEvs (address : Nat) : List Ev :=
  [Ev.select, Ev.rx 0xFF] ++ cmdPacket CMD17 address 0xFF
    ++ [Ev.rx 0x04, Ev.deselect, Ev.tx 0xFF]

/-- The event trace of one failed CMD24 attempt against `busAttemptFail`
(R1 = 0x04 at address `address`): the write internal aborts before the
start token, with the same deselect + trailing 0xFF bracket as a failed
read attempt. -/
def writeFailEvs (address : Nat) : List Ev :=
  [Ev.select, Ev.rx 0xFF] ++ cmdPacket CMD24 address 0xFF
    ++ [Ev.rx 0x04, Ev.deselect, Ev.tx 0xFF]

/-- The event trace of a CMD18 two-block read against `busRM2`. -/
def readMulti2Evs (address : Nat) (dma : Bool) : List Ev :=
  [Ev.select, Ev.rx 0xFF] ++ cmdPacket SD_CMD18 address 0xFF ++ [Ev.rx 0x00]
    ++ [Ev.rx 0xFE, Ev.rxBlock SD_BLOCK_SIZE dma, Ev.rxBlock 2 false]
    ++ [Ev.rx 0xFE, Ev.rxBlock SD_BLOCK_SIZE dma, Ev.rxBlock 2 false]
    ++ [Ev.rx 0xFF] ++ cmdPacket SD_CMD12 0 0xFF ++ [Ev.rx 0x00]
    ++ [Ev.deselect, Ev.tx 0xFF]

/-- The event trace of a CMD25 two-block write against `busWM2`. -/
def writeMulti2Evs (address : Nat) (dma : Bool) : List Ev :=
  [Ev.select, Ev.rx 0xFF] ++ cmdPacket SD_CMD25 address 0xFF ++ [Ev.rx 0x00]
    ++ [Ev.tx SD_TOKEN_START_MULTI_WRITE, Ev.txBlock SD_BLOCK_SIZE dma,
        Ev.tx 0xFF, Ev.tx 0xFF, Ev.rx 0x05, Ev.rx 0xFF]
    ++ [Ev.tx SD_TOKEN_START_MULTI_WRITE, Ev.txBlock SD_BLOCK_SIZE dma,
        Ev.tx 0xFF, Ev.tx 0xFF, Ev.rx 0x05, Ev.rx 0xFF]
    ++ [Ev.tx SD_TOKEN_STOP_TRAN, Ev.rx 0xFF, Ev.deselect, Ev.tx 0xFF]

/-- The event trace of a CMD18 multi-block read against `busMRtokErr`
(block 1's token wait fails, CMD12 is still issued). -/
def mrTokErrEvs (address : Nat) : List Ev :=
  [Ev.select, Ev.rx 0xFF] ++ cmdPacket SD_CMD18 address 0xFF ++ [Ev.rx 0x00]
    ++ [Ev.rx 0]
    ++ [Ev.rx 0xFF] ++ cmdPacket SD_CMD12 0 0xFF ++ [Ev.rx 0x00]
    ++ [Ev.deselect, Ev.tx 0xFF]

/-- The event trace of a CMD25 multi-block write against `busMWrej`
(block 1's data response is 0x0D, the 0xFD stop token is still sent). -/
def mwRejEvs (address : Nat) (dma : Bool) : List Ev :=
  [Ev.select, Ev.rx 0xFF] ++ cmdPacket SD_CMD25 address 0xFF ++ [Ev.rx 0x00]
    ++ [Ev.tx SD_TOKEN_START_MULTI_WRITE, Ev.txBlock SD_BLOCK_SIZE dma,
        Ev.tx 0xFF, Ev.tx 0xFF, Ev.rx 0x0D]
    ++ [Ev.tx SD_TOKEN_STOP_TRAN, Ev.rx 0xFF, Ev.deselect, Ev.tx 0xFF]

/-! Helper lemmas about the embedded driver. -/

theorem recordStatus_fst (h : SD_Handle) (st : SD_Status) :
    (SD_RecordStatus h st).1 = st := rfl

theorem recordStatus_last (h : SD_Handle) (st : SD_Status) :
    (SD_RecordStatus h st).2.last_status = st := rfl

theorem recordStatus_init (h : SD_Handle) (st : SD_Status) :
    (SD_RecordStatus h st).2.initialized = h.initialized := rfl

theorem recordStatus_read_ops (h : SD_Handle) (st : SD_Status) :
    (SD_RecordStatus h st).2.stats.read_ops = h.stats.read_ops := rfl

theorem recordStatus_read_blocks (h : SD_Handle) (st : SD_Status) :
    (SD_RecordStatus h st).2.stats.read_blocks = h.stats.read_blocks := rfl

theorem recordStatus_write_ops (h : SD_Handle) (st : SD_Status) :
    (SD_RecordStatus h st).2.stats.write_ops = h.stats.write_ops := rfl

theorem recordStatus_write_blocks (h : SD_Handle) (st : SD_Status) :
    (SD_RecordStatus h st).2.stats.write_blocks = h.stats.write_blocks := rfl

@[simp] theorem okB_hal : okB.hal = HAL_OK := rfl

@[simp] theorem okB_b : okB.b = 0 := rfl

@[simp] theorem okB_blk : okB.blk = [] := rfl

@[simp] theorem rB_hal (b : Nat) : (rB b).hal = HAL_OK := rfl

@[simp] theorem rB_b (b : Nat) : (rB b).b = b := rfl

@[simp] theorem rB_blk (b : Nat) : (rB b).blk = [] := rfl

@[simp] theorem errB_hal : errB.hal = HAL_ERROR := rfl

@[simp] theorem errB_b : errB.b = 0 := rfl

/-- `SD_WaitReady` succeeds without backoff when the first byte on the
bus is 0xFF, for any fuel. -/
theorem waitReadyGo_ready (fuel : Nat) (rest : List SpiByte) (tr : List Ev) :
    waitReadyGo fuel ⟨rdy :: rest, tr⟩ = (SD_OK, ⟨rest, tr ++ [Ev.rx 0xFF]⟩) := by
  cases fuel <;>
    simp [waitReadyGo, SD_ReceiveByte, spiNext, rdy, rB, SD_FromHalStatus]

/-- `SD_WaitDataToken` succeeds without backoff when the first byte on
the bus is the 0xFE start token, for any fuel. -/
theorem waitDataTokenGo_hit (fuel : Nat) (rest : List SpiByte) (tr : List Ev) :
    waitDataTokenGo fuel ⟨rB 0xFE :: rest, tr⟩ = (SD_OK, ⟨rest, tr ++ [Ev.rx 0xFE]⟩) := by
  cases fuel <;>
    simp [waitDataTokenGo, SD_ReceiveByte, spiNext, rB, SD_FromHalStatus,
      SD_TOKEN_START_BLOCK]

/-- `SD_WaitDataToken` reports `SD_ERROR` when the receive itself fails,
for any fuel. -/
theorem waitDataTokenGo_err (fuel : Nat) (rest : List SpiByte) (tr : List Ev) :
    waitDataTokenGo fuel ⟨errB :: rest, tr⟩ = (SD_ERROR, ⟨rest, tr ++ [Ev.rx 0]⟩) := by
  cases fuel <;>
    simp [waitDataTokenGo, SD_ReceiveByte, spiNext, errB, SD_FromHalStatus]

/-- The response poll hits at the first byte when its MSB is clear. -/
theorem respPollGo_hit (n r0 b : Nat) (rest : List SpiByte) (tr : List Ev)
    (hb : b < 256) (hm : b &&& 0x80 = 0) :
    respPollGo (n + 1) r0 ⟨rB b :: rest, tr⟩ = (SD_OK, b, ⟨rest, tr ++ [Ev.rx b]⟩) := by
  simp [respPollGo, SD_ReceiveByte, spiNext, rB, SD_FromHalStatus,
    Nat.mod_eq_of_lt hb, hm]

/-- One busy (MSB set) byte consumes one poll. -/
theorem respPollGo_busy (n r0 b : Nat) (rest : List SpiByte) (tr : List Ev)
    (hb : b < 256) (hm : b &&& 0x80 ≠ 0) :
    respPollGo (n + 1) r0 ⟨rB b :: rest, tr⟩ =
      respPollGo n r0 ⟨rest, tr ++ [Ev.rx b]⟩ := by
  simp [respPollGo, SD_ReceiveByte, spiNext, rB, SD_FromHalStatus,
    Nat.mod_eq_of_lt hb, hm]

/-- `SD_SendCommand` against a card that is immediately ready and answers
at the first poll: the full framing (ready read, dummy 0xFF, 6-byte
packet, response read) and the R1 result. -/
theorem sendCommand_ok (cmd arg crc r0 resp : Nat) (rest : List SpiByte)
    (tr : List Ev) (hb : resp < 256) (hm : resp &&& 0x80 = 0) :
    SD_SendCommand cmd arg crc r0 ⟨seqCmdOk resp ++ rest, tr⟩ =
      (SD_OK, resp,
        ⟨rest, tr ++ [Ev.rx 0xFF] ++ cmdPacket cmd arg crc ++ [Ev.rx resp]⟩) := by
  have h10 : (10 : Nat) = 9 + 1 := rfl
  simp only [SD_SendCommand, SD_WaitReady, seqCmdOk, List.cons_append, List.nil_append,
    waitReadyGo_ready]
  simp only [ne_eq, not_true_eq_false, if_false, reduceIte]
  simp only [SD_TransmitByte, spiNext, okB, SD_FromHalStatus]
  simp only [h10]
  rw [respPollGo_hit 9 r0 resp rest _ hb hm]
  simp [cmdPacket, List.append_assoc]

/-- A fully successful single-block read consumes `busRS` and emits
exactly the CMD17 bracket. -/
theorem readSingle_ok (h : SD_Handle) (al : Bool) (addr : Nat)
    (rest : List SpiByte) (tr : List Ev) :
    SD_ReadSingleBlockInternal h al addr ⟨busRS ++ rest, tr⟩ =
      (SD_OK, ⟨rest, tr ++ readSingleEvs addr (h.use_dma && al)⟩) := by
  simp only [SD_ReadSingleBlockInternal, SD_Select, busRS, List.append_assoc,
    List.cons_append, List.nil_append]
  rw [sendCommand_ok CMD17 addr 0xFF 0xFF 0 _ _ (by norm_num) (by decide)]
  simp [SD_WaitDataToken, waitDataTokenGo_hit, SD_SPI_TransmitReceive, spiNext,
    okB, SD_FromHalStatus, SD_TransmitByte, SD_Deselect, readSingleEvs,
    cmdPacket, SD_DATA_TOKEN_TIMEOUT_MS, SD_BLOCK_SIZE]

/-- A fully successful single-block write consumes `busWSok` and emits
exactly the CMD24 bracket. -/
theorem writeSingle_ok (h : SD_Handle) (al : Bool) (addr : Nat)
    (rest : List SpiByte) (tr : List Ev) :
    SD_WriteSingleBlockInternal h al addr ⟨busWSok ++ rest, tr⟩ =
      (SD_OK, ⟨rest, tr ++ writeSingleEvs addr (h.use_dma && al)⟩) := by
  simp only [SD_WriteSingleBlockInternal, SD_Select, busWSok, List.append_assoc,
    List.cons_append, List.nil_append]
  rw [sendCommand_ok CMD24 addr 0xFF 0xFF 0 _ _ (by norm_num) (by decide)]
  simp [SD_WaitReady, waitReadyGo_ready, SD_SPI_Transmit, spiNext,
    SD_FromHalStatus, SD_TransmitByte, SD_ReceiveByte, SD_Deselect,
    writeSingleEvs, cmdPacket, SD_WRITE_BUSY_TIMEOUT_MS, SD_BLOCK_SIZE,
    SD_TOKEN_START_BLOCK, SD_DATA_RESP_MASK, SD_DATA_RESP_ACCEPTED,
    show 5 &&& 31 = 5 from rfl]

/-- A single-block read attempt that gets R1 = 0x04 fails with
`SD_ERROR` after deselect and the trailing 0xFF. -/
theorem readSingle_fail04 (h : SD_Handle) (al : Bool) (addr : Nat)
    (rest : List SpiByte) (tr : List Ev) :
    SD_ReadSingleBlockInternal h al addr ⟨busAttemptFail ++ rest, tr⟩ =
      (SD_ERROR, ⟨rest, tr ++ readFailEvs addr⟩) := by
  simp only [SD_ReadSingleBlockInternal, SD_Select, busAttemptFail, List.append_assoc,
    List.cons_append, List.nil_append]
  rw [sendCommand_ok CMD17 addr 0xFF 0xFF 0x04 _ _ (by norm_num) (by decide)]
  simp [SD_TransmitByte, spiNext, okB, SD_FromHalStatus, SD_Deselect,
    readFailEvs, cmdPacket]

/-- A single-block write attempt that gets R1 = 0x04 fails with
`SD_ERROR` after deselect and the trailing 0xFF, consuming the same bus
as a failed read attempt. -/
theorem writeSingle_fail04 (h : SD_Handle) (al : Bool) (addr : Nat)
    (rest : List SpiByte) (tr : List Ev) :
    SD_WriteSingleBlockInternal h al addr ⟨busAttemptFail ++ rest, tr⟩ =
      (SD_ERROR, ⟨rest, tr ++ writeFailEvs addr⟩) := by
  simp only [SD_WriteSingleBlockInternal, SD_Select, busAttemptFail, List.append_assoc,
    List.cons_append, List.nil_append]
  rw [sendCommand_ok CMD24 addr 0xFF 0xFF 0x04 _ _ (by norm_num) (by decide)]
  simp [SD_TransmitByte, spiNext, okB, SD_FromHalStatus, SD_Deselect,
    writeFailEvs, cmdPacket]

/-- One successful iteration of the multi-read per-block loop. -/
theorem readMultiGo_stepOk (dma : Bool) (k : Nat) (rest : List SpiByte) (tr : List Ev) :
    readMultiGo dma (k + 1) ⟨rB 0xFE :: okB :: okB :: rest, tr⟩ =
      readMultiGo dma k
        ⟨rest, tr ++ [Ev.rx 0xFE, Ev.rxBlock SD_BLOCK_SIZE dma, Ev.rxBlock 2 false]⟩ := by
  simp [readMultiGo, SD_WaitDataToken, waitDataTokenGo_hit, SD_SPI_TransmitReceive,
    spiNext, SD_FromHalStatus, SD_DATA_TOKEN_TIMEOUT_MS]

/-- The multi-read per-block loop breaks with `SD_ERROR` when the token
wait's receive fails. -/
theorem readMultiGo_tokErr (dma : Bool) (k : Nat) (rest : List SpiByte) (tr : List Ev) :
    readMultiGo dma (k + 1) ⟨errB :: rest, tr⟩ = (SD_ERROR, ⟨rest, tr ++ [Ev.rx 0]⟩) := by
  simp [readMultiGo, SD_WaitDataToken, waitDataTokenGo_err, SD_DATA_TOKEN_TIMEOUT_MS]

/-- One successful iteration of the multi-write per-block loop. -/
theorem writeMultiGo_stepOk (dma : Bool) (k : Nat) (rest : List SpiByte) (tr : List Ev) :
    writeMultiGo dma (k + 1) ⟨okB :: okB :: okB :: okB :: rB 0x05 :: rdy :: rest, tr⟩ =
      writeMultiGo dma k
        ⟨rest, tr ++ [Ev.tx SD_TOKEN_START_MULTI_WRITE, Ev.txBlock SD_BLOCK_SIZE dma,
          Ev.tx 0xFF, Ev.tx 0xFF, Ev.rx 0x05, Ev.rx 0xFF]⟩ := by
  simp [writeMultiGo, SD_SPI_Transmit, SD_TransmitByte, SD_ReceiveByte,
    SD_WaitReady, waitReadyGo_ready, spiNext, SD_FromHalStatus,
    SD_DATA_RESP_MASK, SD_DATA_RESP_ACCEPTED, SD_WRITE_BUSY_TIMEOUT_MS,
    SD_TOKEN_START_MULTI_WRITE, show 5 &&& 31 = 5 from rfl]

/-- The multi-write per-block loop breaks with `SD_WRITE_ERROR` on a
0x0D data response. -/
theorem writeMultiGo_rej0D (dma : Bool) (k : Nat) (rest : List SpiByte) (tr : List Ev) :
    writeMultiGo dma (k + 1) ⟨okB :: okB :: okB :: okB :: rB 0x0D :: rest, tr⟩ =
      (SD_WRITE_ERROR,
        ⟨rest, tr ++ [Ev.tx SD_TOKEN_START_MULTI_WRITE, Ev.txBlock SD_BLOCK_SIZE dma,
          Ev.tx 0xFF, Ev.tx 0xFF, Ev.rx 0x0D]⟩) := by
  simp [writeMultiGo, SD_SPI_Transmit, SD_TransmitByte, SD_ReceiveByte,
    spiNext, SD_FromHalStatus, SD_DATA_RESP_MASK, SD_DATA_RESP_ACCEPTED,
    SD_DATA_RESP_CRC_ERR, SD_TOKEN_START_MULTI_WRITE,
    show (13:Nat) &&& 31 = 13 from rfl]

set_option maxHeartbeats 1000000 in
/-- A fully successful CMD18 two-block read on an initialized handle. -/
theorem readMulti2_ok (hh : SD_Handle) (al : Bool) (sector : Nat)
    (rest : List SpiByte) (tr : List Ev) (hi : hh.initialized = true) :
    SD_ReadMultiBlocksInternal (some hh) false al sector 2 ⟨busRM2 ++ rest, tr⟩ =
      (SD_OK,
        ⟨rest, tr ++ readMulti2Evs (sd_effectiveAddress hh.is_sdhc sector)
          (hh.use_dma && al)⟩) := by
  simp only [SD_ReadMultiBlocksInternal, hi, SD_Select, busRM2, List.append_assoc,
    List.cons_append, List.nil_append]
  rw [sendCommand_ok SD_CMD18 (sd_effectiveAddress hh.is_sdhc sector) 0xFF 0xFF 0 _ _
    (by norm_num) (by decide)]
  simp only [ne_eq, not_true_eq_false, false_or, reduceCtorEq, if_false, reduceIte]
  rw [show (2 : Nat) = 1 + 1 from rfl, readMultiGo_stepOk, readMultiGo_stepOk,
    readMultiGo]
  rw [sendCommand_ok SD_CMD12 0 0xFF 0 0 _ _ (by norm_num) (by decide)]
  simp [SD_Deselect, SD_TransmitByte, spiNext, SD_FromHalStatus,
    readMulti2Evs, cmdPacket]

/-- A fully successful CMD25 two-block write on an initialized handle. -/
theorem writeMulti2_ok (hh : SD_Handle) (al : Bool) (sector : Nat)
    (rest : List SpiByte) (tr : List Ev) (hi : hh.initialized = true) :
    SD_WriteMultiBlocksInternal (some hh) false al sector 2 ⟨busWM2 ++ rest, tr⟩ =
      (SD_OK,
        ⟨rest, tr ++ writeMulti2Evs (sd_effectiveAddress hh.is_sdhc sector)
          (hh.use_dma && al)⟩) := by
  simp only [SD_WriteMultiBlocksInternal, hi, SD_Select, busWM2, List.append_assoc,
    List.cons_append, List.nil_append]
  rw [sendCommand_ok SD_CMD25 (sd_effectiveAddress hh.is_sdhc sector) 0xFF 0xFF 0 _ _
    (by norm_num) (by decide)]
  simp only [ne_eq, not_true_eq_false, false_or, reduceCtorEq, if_false, reduceIte]
  rw [show (2 : Nat) = 1 + 1 from rfl, writeMultiGo_stepOk, writeMultiGo_stepOk,
    writeMultiGo]
  simp [SD_Deselect, SD_TransmitByte, spiNext, SD_FromHalStatus, SD_WaitReady,
    waitReadyGo_ready, writeMulti2Evs, cmdPacket, SD_TOKEN_STOP_TRAN,
    SD_WRITE_BUSY_TIMEOUT_MS]

set_option maxHeartbeats 1000000 in
/-- A CMD18 multi-block read (any requested `count ≥ 2`) whose first
data-token wait fails: the loop breaks at block 1, CMD12 is still issued,
and the block's failure status is returned. -/
theorem readMulti_tokErr (hh : SD_Handle) (al : Bool) (sector n : Nat)
    (rest : List SpiByte) (tr : List Ev) (hi : hh.initialized = true) :
    SD_ReadMultiBlocksInternal (some hh) false al sector (n + 2) ⟨busMRtokErr ++ rest, tr⟩ =
      (SD_ERROR,
        ⟨rest, tr ++ mrTokErrEvs (sd_effectiveAddress hh.is_sdhc sector)⟩) := by
  simp only [SD_ReadMultiBlocksInternal, hi, SD_Select, busMRtokErr, List.append_assoc,
    List.cons_append, List.nil_append]
  rw [sendCommand_ok SD_CMD18 (sd_effectiveAddress hh.is_sdhc sector) 0xFF 0xFF 0 _ _
    (by norm_num) (by decide)]
  simp only [ne_eq, not_true_eq_false, false_or, reduceCtorEq, if_false, reduceIte]
  rw [show n + 2 = (n + 1) + 1 from rfl, readMultiGo_tokErr]
  rw [sendCommand_ok SD_CMD12 0 0xFF 0 0 _ _ (by norm_num) (by decide)]
  simp [SD_Deselect, SD_TransmitByte, spiNext, SD_FromHalStatus,
    mrTokErrEvs, cmdPacket]

/-- A CMD25 multi-block write (any requested `count ≥ 2`) whose first
block is rejected with data response 0x0D: the loop breaks at block 1,
the 0xFD stop token is still sent, and `SD_WRITE_ERROR` is returned. -/
theorem writeMulti_rej (hh : SD_Handle) (al : Bool) (sector n : Nat)
    (rest : List SpiByte) (tr : List Ev) (hi : hh.initialized = true) :
    SD_WriteMultiBlocksInternal (some hh) false al sector (n + 2) ⟨busMWrej ++ rest, tr⟩ =
      (SD_WRITE_ERROR,
        ⟨rest, tr ++ mwRejEvs (sd_effectiveAddress hh.is_sdhc sector)
          (hh.use_dma && al)⟩) := by
  simp only [SD_WriteMultiBlocksInternal, hi, SD_Select, busMWrej, List.append_assoc,
    List.cons_append, List.nil_append]
  rw [sendCommand_ok SD_CMD25 (sd_effectiveAddress hh.is_sdhc sector) 0xFF 0xFF 0 _ _
    (by norm_num) (by decide)]
  simp only [ne_eq, not_true_eq_false, false_or, reduceCtorEq, if_false, reduceIte]
  rw [show n + 2 = (n + 1) + 1 from rfl, writeMultiGo_rej0D]
  simp [SD_Deselect, SD_TransmitByte, spiNext, SD_FromHalStatus, SD_WaitReady,
    waitReadyGo_ready, mwRejEvs, cmdPacket, SD_TOKEN_STOP_TRAN,
    SD_WRITE_BUSY_TIMEOUT_MS]

/-- A card holding MISO low for `fuel + 1` polls exhausts the ready
wait's deadline: `SD_TIMEOUT`, after one receive-plus-backoff per
iteration. -/
theorem waitReadyGo_busy_run (fuel : Nat) :
    ∀ (rest : List SpiByte) (tr : List Ev),
      waitReadyGo fuel ⟨List.replicate (fuel + 1) (rB 0) ++ rest, tr⟩ =
        (SD_TIMEOUT, ⟨rest, tr ++ busyEvs (fuel + 1)⟩) := by
  induction fuel with
  | zero =>
    intro rest tr
    simp [waitReadyGo, SD_ReceiveByte, spiNext, SD_FromHalStatus, SD_BackoffDelay,
      busyEvs]
  | succ f ih =>
    intro rest tr
    rw [show f + 1 + 1 = (f + 1) + 1 from rfl, List.replicate_succ]
    simp only [List.cons_append, waitReadyGo, SD_ReceiveByte, spiNext,
      SD_FromHalStatus, rB_hal, rB_b, SD_BackoffDelay]
    rw [show (0 : Nat) % 256 = 0 from rfl]
    simp only [ne_eq, not_true_eq_false, if_false, reduceIte, reduceCtorEq,
      OfNat.zero_ne_ofNat]
    rw [ih rest (tr ++ [Ev.rx 0] ++ [Ev.backoff])]
    simp [busyEvs, List.append_assoc]

/-- Ten busy (MSB-set) response polls exhaust `SD_SendCommand`'s poll
loop: the caller's response variable is returned unchanged with
`SD_TIMEOUT`. -/
theorem respPollGo_allBusy :
    ∀ (bs : List Nat) (r0 : Nat) (rest : List SpiByte) (tr : List Ev),
      (∀ b ∈ bs, b < 256 ∧ b &&& 0x80 ≠ 0) →
      respPollGo bs.length r0 ⟨bs.map rB ++ rest, tr⟩ =
        (SD_TIMEOUT, r0, ⟨rest, tr ++ bs.map Ev.rx⟩) := by
  intro bs
  induction bs with
  | nil => intro r0 rest tr _; simp [respPollGo]
  | cons b bs ih =>
    intro r0 rest tr hall
    obtain ⟨hb, hm⟩ := hall b (List.mem_cons_self b bs)
    simp only [List.map_cons, List.cons_append, List.length_cons]
    rw [respPollGo_busy bs.length r0 b _ _ hb hm]
    rw [ih r0 rest (tr ++ [Ev.rx b]) (fun x hx => hall x (List.mem_cons_of_mem b hx))]
    simp [List.append_assoc]

/-- A busy-poll run of length `k` followed by an MSB-clear byte: the poll
loop succeeds at poll `k + 1` with that byte, provided at least `k + 1`
polls remain. -/
theorem respPollGo_prefix_hit :
    ∀ (bs : List Nat) (n r0 r : Nat) (rest : List SpiByte) (tr : List Ev),
      (∀ b ∈ bs, b < 256 ∧ b &&& 0x80 ≠ 0) → r < 256 → r &&& 0x80 = 0 →
      respPollGo (bs.length + (n + 1)) r0 ⟨bs.map rB ++ rB r :: rest, tr⟩ =
        (SD_OK, r, ⟨rest, tr ++ bs.map Ev.rx ++ [Ev.rx r]⟩) := by
  intro bs
  induction bs with
  | nil =>
    intro n r0 r rest tr _ hr hm
    simpa using respPollGo_hit n r0 r rest tr hr hm
  | cons b bs ih =>
    intro n r0 r rest tr hall hr hm
    obtain ⟨hb, hbm⟩ := hall b (List.mem_cons_self b bs)
    simp only [List.map_cons, List.cons_append, List.length_cons]
    rw [show bs.length + 1 + (n + 1) = (bs.length + (n + 1)) + 1 by omega]
    rw [respPollGo_busy (bs.length + (n + 1)) r0 b _ _ hb hbm]
    rw [ih n r0 r rest (tr ++ [Ev.rx b]) (fun x hx => hall x (List.mem_cons_of_mem b hx)) hr hm]
    simp [List.append_assoc]

/-- The status of a CMD24 single-block write whose data response byte is
`r` (and whose subsequent busy wait, if reached, succeeds): accepted iff
the low 5 bits of `r` are 0x05, `SD_CRC_ERROR` iff the whole byte is
0x0B, and `SD_WRITE_ERROR` for every other non-accepted byte. -/
theorem writeSingle_resp_status (h : SD_Handle) (al : Bool) (addr r : Nat)
    (rest : List SpiByte) (tr : List Ev) (hb : r < 256) :
    (SD_WriteSingleBlockInternal h al addr ⟨busWSlist r ++ rest, tr⟩).1 =
      (if r &&& SD_DATA_RESP_MASK = SD_DATA_RESP_ACCEPTED then SD_OK
       else if r = SD_DATA_RESP_CRC_ERR then SD_CRC_ERROR else SD_WRITE_ERROR) := by
  simp only [SD_WriteSingleBlockInternal, SD_Select, busWSlist, List.append_assoc,
    List.cons_append, List.nil_append]
  rw [sendCommand_ok CMD24 addr 0xFF 0xFF 0 _ _ (by norm_num) (by decide)]
  simp only [ne_eq, not_true_eq_false, false_or, reduceCtorEq, if_false, reduceIte]
  simp only [SD_SPI_Transmit, SD_TransmitByte, SD_ReceiveByte, spiNext,
    SD_FromHalStatus, rB_hal, rB_b, okB_hal, okB_b, Nat.mod_eq_of_lt hb]
  by_cases hacc : r &&& SD_DATA_RESP_MASK = SD_DATA_RESP_ACCEPTED
  · simp [hacc, SD_WaitReady, waitReadyGo_ready, SD_Deselect, SD_TransmitByte, spiNext,
      SD_FromHalStatus, SD_WRITE_BUSY_TIMEOUT_MS]
  · simp [hacc, SD_Deselect, SD_TransmitByte, spiNext, SD_FromHalStatus]

/-- The status of a one-block CMD25 multi-block write whose data response
byte is `r`: same classification as the single-block path. -/
theorem writeMulti1_resp_status (hh : SD_Handle) (al : Bool) (sector r : Nat)
    (rest : List SpiByte) (tr : List Ev) (hb : r < 256) (hi : hh.initialized = true) :
    (SD_WriteMultiBlocksInternal (some hh) false al sector 1 ⟨busWMlist r ++ rest, tr⟩).1 =
      (if r &&& SD_DATA_RESP_MASK = SD_DATA_RESP_ACCEPTED then SD_OK
       else if r = SD_DATA_RESP_CRC_ERR then SD_CRC_ERROR else SD_WRITE_ERROR) := by
  simp only [SD_WriteMultiBlocksInternal, hi, SD_Select, busWMlist, List.append_assoc,
    List.cons_append, List.nil_append]
  rw [sendCommand_ok SD_CMD25 (sd_effectiveAddress hh.is_sdhc sector) 0xFF 0xFF 0 _ _
    (by norm_num) (by decide)]
  simp only [ne_eq, not_true_eq_false, false_or, reduceCtorEq, if_false, reduceIte]
  rw [show (1 : Nat) = 0 + 1 from rfl]
  simp only [writeMultiGo, SD_SPI_Transmit, SD_TransmitByte, SD_ReceiveByte, spiNext,
    SD_FromHalStatus, rB_hal, rB_b, okB_hal, okB_b, Nat.mod_eq_of_lt hb]
  by_cases hacc : r &&& SD_DATA_RESP_MASK = SD_DATA_RESP_ACCEPTED
  · simp [hacc, SD_WaitReady, waitReadyGo_ready, SD_Deselect, SD_TransmitByte, spiNext,
      SD_FromHalStatus, SD_WRITE_BUSY_TIMEOUT_MS, SD_TOKEN_STOP_TRAN]
  · simp [hacc, SD_WaitReady, waitReadyGo_ready, SD_Deselect, SD_TransmitByte, spiNext,
      SD_FromHalStatus, SD_TOKEN_STOP_TRAN, SD_WRITE_BUSY_TIMEOUT_MS]

set_option maxRecDepth 4096 in
/-- Bitwise-to-arithmetic bridge for the byte-level field extractions in
`SD_ParseCSD`, verified over the whole `uint8_t` range. -/
theorem byteFacts : ∀ x < 256,
    x >>> 6 &&& 0x3 = x / 64 % 4 ∧ x &&& 0x3F = x % 64 ∧ x &&& 0x0F = x % 16 ∧
    x &&& 0x03 = x % 4 ∧ x >>> 6 = x / 64 ∧ x >>> 7 &&& 0x01 = x / 128 % 2 ∧
    x <<< 2 = x * 4 ∧ x <<< 8 = x * 256 := by decide

/-- Or of disjoint parts is addition: `a ||| b = a + b` when `a` lives
above bit `k` and `b` below it. -/
theorem lor_eq_add (k a b : Nat) (ha : 2 ^ k ∣ a) (hb : b < 2 ^ k) :
    a ||| b = a + b := by
  obtain ⟨m, rfl⟩ := ha
  apply Nat.eq_of_testBit_eq
  intro j
  rw [Nat.testBit_lor, Nat.testBit_mul_pow_two_add m hb j]
  by_cases hj : j < k
  · have h1 : (2 ^ k * m).testBit j = false := by
      have h2 := Nat.testBit_mul_pow_two_add m
        (show (0 : Nat) < 2 ^ k by positivity) j
      simpa [hj] using h2
    simp [hj, h1]
  · have h2 : b.testBit j = false :=
      Nat.testBit_lt_two_pow
        (lt_of_lt_of_le hb (Nat.pow_le_pow_right (by norm_num) (Nat.le_of_not_lt hj)))
    have h3 : (2 ^ k * m).testBit j = m.testBit (j - k) := by
      have h4 := Nat.testBit_mul_pow_two_add m
        (show (0 : Nat) < 2 ^ k by positivity) j
      simpa [hj] using h4
    simp [hj, h2, h3]

/-! Claim theorems. -/

/-- C5 (counterexample): the claim's capacity formula read in exact
arithmetic disagrees with `SD_ParseCSD` on the CSD v2 register whose
C_SIZE field is all-ones (`0x3FFFFF`): the code's `uint32_t` product
`(C_SIZE + 1) * 1024 = 2^32` wraps to 0, while the claim's formula gives
`2^32`. -/
theorem sd_c5_counterexample :
    SD_ParseCSD [0x40, 0, 0, 0, 0, 0, 0, 0x3F, 0xFF, 0xFF, 0, 0, 0, 0, 0, 0] = 0 ∧
    spec_csd_capacity_exact [0x40, 0, 0, 0, 0, 0, 0, 0x3F, 0xFF, 0xFF, 0, 0, 0, 0, 0, 0] =
      2 ^ 32 ∧
    (0 : Nat) ≠ 2 ^ 32 := by
  refine ⟨by decide, by decide, by decide⟩

/-- C5 (amended): for every 16-byte CSD array, `SD_ParseCSD` computes
exactly the claim's formula with the products reduced modulo `2^32`
(`uint32_t` arithmetic): CSD v2 gives `((C_SIZE + 1) × 1024) mod 2^32`
with C_SIZE from the low 6 bits of byte 7 and bytes 8-9; CSD v1 gives
`(((C_SIZE + 1) × 2^(C_SIZE_MULT+2) × 2^READ_BL_LEN) mod 2^32) / 512`;
any other structure value gives 0. -/
theorem sd_c5_parse_csd_amended (csd : List Nat) :
    SD_ParseCSD csd = spec_csd_capacity_mod32 csd := by
  have hlt : ∀ i, csd.getD i 0 % 256 < 256 := fun i => Nat.mod_lt _ (by norm_num)
  simp only [SD_ParseCSD, spec_csd_capacity_mod32, u32, SD_BLOCK_SIZE]
  have hb0 := hlt 0
  have hb5 := hlt 5
  have hb6 := hlt 6
  have hb7 := hlt 7
  have hb8 := hlt 8
  have hb9 := hlt 9
  have hb10 := hlt 10
  generalize h0 : csd.getD 0 0 % 256 = x0 at hb0 ⊢
  generalize h5 : csd.getD 5 0 % 256 = x5 at hb5 ⊢
  generalize h6 : csd.getD 6 0 % 256 = x6 at hb6 ⊢
  generalize h7 : csd.getD 7 0 % 256 = x7 at hb7 ⊢
  generalize h8 : csd.getD 8 0 % 256 = x8 at hb8 ⊢
  generalize h9 : csd.getD 9 0 % 256 = x9 at hb9 ⊢
  generalize h10 : csd.getD 10 0 % 256 = x10 at hb10 ⊢
  rw [(byteFacts x0 hb0).1]
  by_cases hs1 : x0 / 64 % 4 = 1
  · simp only [hs1, if_true, reduceIte]
    have hc2 : (x7 &&& 0x3F) <<< 16 ||| x8 <<< 8 ||| x9 =
        x7 % 64 * 65536 + x8 * 256 + x9 := by
      rw [(byteFacts x7 hb7).2.1, (byteFacts x8 hb8).2.2.2.2.2.2.2, Nat.shiftLeft_eq]
      rw [lor_eq_add 16 (x7 % 64 * 2 ^ 16) (x8 * 256) ⟨x7 % 64, by ring⟩
        (by simp only [show (2 : Nat) ^ 16 = 65536 from rfl]; omega)]
      rw [lor_eq_add 8 (x7 % 64 * 2 ^ 16 + x8 * 256) x9 ⟨x7 % 64 * 256 + x8, by ring⟩
        (by simp only [show (2 : Nat) ^ 8 = 256 from rfl]; omega)]
    rw [hc2]
  · simp only [hs1, if_false, reduceIte]
    by_cases hs0 : x0 / 64 % 4 = 0
    · simp only [hs0, if_true, reduceIte]
      have hcs : (x6 &&& 0x03) <<< 10 ||| x7 <<< 2 ||| x8 >>> 6 =
          x6 % 4 * 1024 + x7 * 4 + x8 / 64 := by
        rw [(byteFacts x6 hb6).2.2.2.1, (byteFacts x7 hb7).2.2.2.2.2.2.1,
          (byteFacts x8 hb8).2.2.2.2.1, Nat.shiftLeft_eq]
        rw [lor_eq_add 10 (x6 % 4 * 2 ^ 10) (x7 * 4) ⟨x6 % 4, by ring⟩
          (by simp only [show (2 : Nat) ^ 10 = 1024 from rfl]; omega)]
        rw [lor_eq_add 2 (x6 % 4 * 2 ^ 10 + x7 * 4) (x8 / 64) ⟨x6 % 4 * 256 + x7, by ring⟩
          (by simp only [show (2 : Nat) ^ 2 = 4 from rfl]; omega)]
      have hcm : (x9 &&& 0x03) <<< 1 ||| x10 >>> 7 &&& 0x01 =
          x9 % 4 * 2 + x10 / 128 % 2 := by
        rw [(byteFacts x9 hb9).2.2.2.1, (byteFacts x10 hb10).2.2.2.2.2.1,
          Nat.shiftLeft_eq]
        rw [lor_eq_add 1 (x9 % 4 * 2 ^ 1) (x10 / 128 % 2) ⟨x9 % 4, by ring⟩
          (by simp only [show (2 : Nat) ^ 1 = 2 from rfl]; omega)]
      rw [hcs, hcm, (byteFacts x5 hb5).2.2.1, Nat.one_shiftLeft, Nat.one_shiftLeft]
      have hcb : x6 % 4 * 1024 + x7 * 4 + x8 / 64 ≤ 4095 := by omega
      have hmb : x9 % 4 * 2 + x10 / 128 % 2 ≤ 7 := by omega
      have hnowrap :
          (x6 % 4 * 1024 + x7 * 4 + x8 / 64 + 1) * 2 ^ (x9 % 4 * 2 + x10 / 128 % 2 + 2)
            < 2 ^ 32 := by
        calc (x6 % 4 * 1024 + x7 * 4 + x8 / 64 + 1) * 2 ^ (x9 % 4 * 2 + x10 / 128 % 2 + 2)
            ≤ 4096 * 2 ^ 9 :=
              Nat.mul_le_mul (by omega) (Nat.pow_le_pow_right (by norm_num) (by omega))
          _ < 2 ^ 32 := by norm_num
      rw [Nat.mod_eq_of_lt hnowrap, Nat.mul_assoc]
    · simp [hs0, hs1]

/-- C10: on a NULL handle every query accessor is total and returns its
neutral value, and the stats operations change nothing: `SD_IsSDHC`,
`SD_IsInitialized` and `SD_IsCardPresent` return false,
`SD_GetBlockCount` returns 0, `SD_GetStats` leaves the out-struct
untouched, and `SD_ResetStats` leaves all state unchanged. -/
theorem sd_c10_null_accessors :
    SD_IsSDHC none = false ∧ SD_IsInitialized none = false ∧
    SD_GetBlockCount none = 0 ∧ (∀ pin : Bool, SD_IsCardPresent none pin = false) ∧
    (∀ out : Option SD_Stats, SD_GetStats none out = out) ∧
    SD_ResetStats none = none :=
  ⟨rfl, rfl, rfl, fun _ => rfl, fun out => by cases out <;> rfl, rfl⟩

/-- C8: `SD_ReadBlocks` and `SD_WriteBlocks` with a NULL buffer or with
`count = 0` return `SD_PARAM` having only recorded the status in the
handle: the bus oracle is not consumed and no event (no chip-select
change, no SPI transfer) is emitted — the returned driver state is the
input state. -/
theorem sd_c8_param_guard :
    (∀ (h : SD_Handle) (al : Bool) (sector count : Nat) (pin : Bool)
        (lock : SD_Status) (s : St),
      SD_ReadBlocks h true al sector count pin lock s =
        (SD_PARAM, (SD_RecordStatus h SD_PARAM).2, s)) ∧
    (∀ (h : SD_Handle) (bn al : Bool) (sector : Nat) (pin : Bool)
        (lock : SD_Status) (s : St),
      SD_ReadBlocks h bn al sector 0 pin lock s =
        (SD_PARAM, (SD_RecordStatus h SD_PARAM).2, s)) ∧
    (∀ (h : SD_Handle) (al : Bool) (sector count : Nat) (pin : Bool)
        (lock : SD_Status) (s : St),
      SD_WriteBlocks h true al sector count pin lock s =
        (SD_PARAM, (SD_RecordStatus h SD_PARAM).2, s)) ∧
    (∀ (h : SD_Handle) (bn al : Bool) (sector : Nat) (pin : Bool)
        (lock : SD_Status) (s : St),
      SD_WriteBlocks h bn al sector 0 pin lock s =
        (SD_PARAM, (SD_RecordStatus h SD_PARAM).2, s)) := by
  refine ⟨fun h al sector count pin lock s => ?_, fun h bn al sector pin lock s => ?_,
    fun h al sector count pin lock s => ?_, fun h bn al sector pin lock s => ?_⟩ <;>
    simp [SD_ReadBlocks, SD_WriteBlocks, recordStatus_fst]

/-- C2 (counterexample): a `SD_ReadBlocks` call on a handle that is not
initialized (valid buffer, `count = 1`, card present, lock acquired)
returns `SD_ERROR` and leaves `stats.read_ops` at 0 — the call does not
increment the counters, contradicting "regardless of its return status
(including ... ERROR-before-initialization)". -/
theorem sd_c2_counterexample :
    (SD_ReadBlocks ⟨false, false, false, false, false, SD_OK, 0, 512, zeroStats⟩
        false false 7 1 true SD_OK ⟨[], []⟩).1 = SD_ERROR ∧
    (SD_ReadBlocks ⟨false, false, false, false, false, SD_OK, 0, 512, zeroStats⟩
        false false 7 1 true SD_OK ⟨[], []⟩).2.1.stats.read_ops = 0 ∧
    (SD_ReadBlocks ⟨false, false, false, false, false, SD_OK, 0, 512, zeroStats⟩
        false false 7 1 true SD_OK ⟨[], []⟩).2.1.stats.read_blocks = 0 :=
  ⟨rfl, rfl, rfl⟩

/-- C2 (amended): `SD_ReadBlocks`/`SD_WriteBlocks` increment
`read_ops`/`write_ops` by 1 and add `count` to
`read_blocks`/`write_blocks` (as `uint32_t`) exactly when the call passes
parameter validation, the presence gate, lock acquisition and the
`initialized` check — then regardless of the I/O outcome (any bus); on
the `PARAM`, `NO_MEDIA`, `BUSY` and ERROR-before-initialization paths the
counters are unchanged. -/
theorem sd_c2_stats_amended :
    (∀ (h : SD_Handle) (al pin : Bool) (sector k : Nat) (s : St),
      (SD_ReadBlocks { h with initialized := true, has_cd := false }
          false al sector (k + 1) pin SD_OK s).2.1.stats.read_ops =
        u32 (h.stats.read_ops + 1) ∧
      (SD_ReadBlocks { h with initialized := true, has_cd := false }
          false al sector (k + 1) pin SD_OK s).2.1.stats.read_blocks =
        u32 (h.stats.read_blocks + (k + 1))) ∧
    (∀ (h : SD_Handle) (al pin : Bool) (sector k : Nat) (s : St),
      (SD_WriteBlocks { h with initialized := true, has_cd := false }
          false al sector (k + 1) pin SD_OK s).2.1.stats.write_ops =
        u32 (h.stats.write_ops + 1) ∧
      (SD_WriteBlocks { h with initialized := true, has_cd := false }
          false al sector (k + 1) pin SD_OK s).2.1.stats.write_blocks =
        u32 (h.stats.write_blocks + (k + 1))) ∧
    (∀ (h : SD_Handle) (al : Bool) (sector : Nat) (pin : Bool) (lock : SD_Status) (s : St),
      (SD_ReadBlocks h true al sector 0 pin lock s).2.1.stats.read_ops =
          h.stats.read_ops ∧
        (SD_ReadBlocks h true al sector 0 pin lock s).2.1.stats.read_blocks =
          h.stats.read_blocks ∧
        (SD_WriteBlocks h true al sector 0 pin lock s).2.1.stats.write_ops =
          h.stats.write_ops ∧
        (SD_WriteBlocks h true al sector 0 pin lock s).2.1.stats.write_blocks =
          h.stats.write_blocks) ∧
    (∀ (h : SD_Handle) (al : Bool) (sector k : Nat) (lock : SD_Status) (s : St),
      (SD_ReadBlocks { h with has_cd := true } false al sector (k + 1)
            h.cd_active_low lock s).1 = SD_NO_MEDIA ∧
        (SD_ReadBlocks { h with has_cd := true } false al sector (k + 1)
            h.cd_active_low lock s).2.1.stats.read_ops = h.stats.read_ops ∧
        (SD_WriteBlocks { h with has_cd := true } false al sector (k + 1)
            h.cd_active_low lock s).2.1.stats.write_ops = h.stats.write_ops) ∧
    (∀ (h : SD_Handle) (al : Bool) (sector k : Nat) (s : St),
      (SD_ReadBlocks { h with has_cd := false } false al sector (k + 1)
            true SD_BUSY s).1 = SD_BUSY ∧
        (SD_ReadBlocks { h with has_cd := false } false al sector (k + 1)
            true SD_BUSY s).2.1.stats.read_ops = h.stats.read_ops ∧
        (SD_WriteBlocks { h with has_cd := false } false al sector (k + 1)
            true SD_BUSY s).2.1.stats.write_ops = h.stats.write_ops) ∧
    (∀ (h : SD_Handle) (al : Bool) (sector k : Nat) (s : St),
      (SD_ReadBlocks { h with initialized := false, has_cd := false }
            false al sector (k + 1) true SD_OK s).1 = SD_ERROR ∧
        (SD_ReadBlocks { h with initialized := false, has_cd := false }
            false al sector (k + 1) true SD_OK s).2.1.stats.read_ops =
          h.stats.read_ops ∧
        (SD_WriteBlocks { h with initialized := false, has_cd := false }
            false al sector (k + 1) true SD_OK s).2.1.stats.write_ops =
          h.stats.write_ops) := by
  refine ⟨fun h al pin sector k s => ⟨?_, ?_⟩, fun h al pin sector k s => ⟨?_, ?_⟩,
    fun h al sector pin lock s => ⟨?_, ?_, ?_, ?_⟩,
    fun h al sector k lock s => ⟨?_, ?_, ?_⟩,
    fun h al sector k s => ⟨?_, ?_, ?_⟩,
    fun h al sector k s => ⟨?_, ?_, ?_⟩⟩ <;>
    simp [SD_ReadBlocks, SD_WriteBlocks, SD_RecordStatus, SD_IsCardPresent]

/-- C3 (counterexample): on a handle with card-detect configured
(`has_cd = true`), card absent and not initialized, `SD_Sync` returns
`SD_ERROR`, not `SD_NO_MEDIA` — the `initialized` check runs before the
presence check, so presence is not "checked before any other
validation". -/
theorem sd_c3_counterexample :
    SD_IsCardPresent
        (some ⟨true, false, false, false, false, SD_OK, 0, 512, zeroStats⟩) false = false ∧
    (SD_Sync ⟨true, false, false, false, false, SD_OK, 0, 512, zeroStats⟩
        false SD_OK ⟨[], []⟩).1 = SD_ERROR ∧
    SD_ERROR ≠ SD_NO_MEDIA :=
  ⟨rfl, rfl, by decide⟩

/-- C3 (amended): in `SD_ReadBlocks`/`SD_WriteBlocks` the presence check
runs after parameter validation (a NULL buffer returns `SD_PARAM` even
with the card absent) but before the lock and `initialized` checks; in
`SD_Sync` it runs after the `initialized` check.  Whenever the presence
check runs and the card is absent, the operation clears `initialized` and
returns `SD_NO_MEDIA`; among these operations' outcomes `SD_NO_MEDIA` is
the only one that changes `initialized` (read/write/sync either preserve
`initialized` or clear it returning `SD_NO_MEDIA`).  When card-detect is
not configured, presence is always reported true. -/
theorem sd_c3_presence_amended :
    (∀ (h : SD_Handle) (al : Bool) (sector k : Nat) (lock : SD_Status) (s : St),
      (SD_ReadBlocks { h with has_cd := true } false al sector (k + 1)
            h.cd_active_low lock s).1 = SD_NO_MEDIA ∧
        (SD_ReadBlocks { h with has_cd := true } false al sector (k + 1)
            h.cd_active_low lock s).2.1.initialized = false ∧
        (SD_ReadBlocks { h with has_cd := true } false al sector (k + 1)
            h.cd_active_low lock s).2.2 = s) ∧
    (∀ (h : SD_Handle) (al : Bool) (sector k : Nat) (lock : SD_Status) (s : St),
      (SD_WriteBlocks { h with has_cd := true } false al sector (k + 1)
            h.cd_active_low lock s).1 = SD_NO_MEDIA ∧
        (SD_WriteBlocks { h with has_cd := true } false al sector (k + 1)
            h.cd_active_low lock s).2.1.initialized = false ∧
        (SD_WriteBlocks { h with has_cd := true } false al sector (k + 1)
            h.cd_active_low lock s).2.2 = s) ∧
    (∀ (h : SD_Handle) (lock : SD_Status) (s : St),
      (SD_Sync { h with has_cd := true, initialized := true }
            h.cd_active_low lock s).1 = SD_NO_MEDIA ∧
        (SD_Sync { h with has_cd := true, initialized := true }
            h.cd_active_low lock s).2.1.initialized = false ∧
        (SD_Sync { h with has_cd := true, initialized := true }
            h.cd_active_low lock s).2.2 = s) ∧
    (∀ (h : SD_Handle) (pin : Bool),
      SD_IsCardPresent (some { h with has_cd := false }) pin = true) ∧
    (∀ (h : SD_Handle) (bn al : Bool) (sector count : Nat) (pin : Bool)
        (lock : SD_Status) (s : St),
      (SD_ReadBlocks h bn al sector count pin lock s).2.1.initialized =
          h.initialized ∨
        ((SD_ReadBlocks h bn al sector count pin lock s).1 = SD_NO_MEDIA ∧
          (SD_ReadBlocks h bn al sector count pin lock s).2.1.initialized = false)) ∧
    (∀ (h : SD_Handle) (bn al : Bool) (sector count : Nat) (pin : Bool)
        (lock : SD_Status) (s : St),
      (SD_WriteBlocks h bn al sector count pin lock s).2.1.initialized =
          h.initialized ∨
        ((SD_WriteBlocks h bn al sector count pin lock s).1 = SD_NO_MEDIA ∧
          (SD_WriteBlocks h bn al sector count pin lock s).2.1.initialized = false)) ∧
    (∀ (h : SD_Handle) (pin : Bool) (lock : SD_Status) (s : St),
      (SD_Sync h pin lock s).2.1.initialized = h.initialized ∨
        ((SD_Sync h pin lock s).1 = SD_NO_MEDIA ∧
          (SD_Sync h pin lock s).2.1.initialized = false)) ∧
    (∀ (h : SD_Handle) (al : Bool) (sector count : Nat) (lock : SD_Status) (s : St),
      (SD_ReadBlocks { h with has_cd := true } true al sector count
            h.cd_active_low lock s).1 = SD_PARAM ∧
        (SD_ReadBlocks { h with has_cd := true } true al sector count
            h.cd_active_low lock s).2.1.initialized = h.initialized) := by
  refine ⟨fun h al sector k lock s => ?_,
    fun h al sector k lock s => ?_,
    fun h lock s => ?_,
    fun h pin => ?_,
    fun h bn al sector count pin lock s => ?_,
    fun h bn al sector count pin lock s => ?_,
    fun h pin lock s => ?_,
    fun h al sector count lock s => ?_⟩
  · refine ⟨?_, ?_, ?_⟩ <;>
      simp [SD_ReadBlocks, SD_RecordStatus, SD_IsCardPresent]
  · refine ⟨?_, ?_, ?_⟩ <;>
      simp [SD_WriteBlocks, SD_RecordStatus, SD_IsCardPresent]
  · refine ⟨?_, ?_, ?_⟩ <;>
      simp [SD_Sync, SD_RecordStatus, SD_IsCardPresent]
  · simp [SD_IsCardPresent]
  · simp only [SD_ReadBlocks]
    split_ifs <;> simp [SD_RecordStatus]
  · simp only [SD_WriteBlocks]
    split_ifs <;> simp [SD_RecordStatus]
  · simp only [SD_Sync]
    split_ifs <;> simp [SD_RecordStatus]
  · refine ⟨?_, ?_⟩ <;> simp [SD_ReadBlocks, SD_RecordStatus]

/-- C9 (counterexample): `SD_Init` on a non-NULL handle with a NULL SPI
peripheral pointer returns `SD_PARAM` without touching the handle, so a
handle whose `last_status` was `SD_ERROR` keeps it — `last_status` does
not equal the returned status after this operation. -/
theorem sd_c9_counterexample :
    SD_Init ⟨false, false, false, false, false, SD_ERROR, 0, 512, zeroStats⟩
        true false false true =
      (SD_PARAM, ⟨false, false, false, false, false, SD_ERROR, 0, 512, zeroStats⟩) ∧
    (⟨false, false, false, false, false, SD_ERROR, 0, 512, zeroStats⟩ :
        SD_Handle).last_status ≠ SD_PARAM :=
  ⟨rfl, by decide⟩

/-- Every exit of the CSD tail of `SD_SPI_Init` records its status. -/
theorem sdInitFinish_last (h3 : SD_Handle) (s : St) :
    (sdInitFinish h3 s).2.1.last_status = (sdInitFinish h3 s).1 := by
  simp only [sdInitFinish]
  split_ifs <;> simp [SD_RecordStatus]

/-- Every exit of the discovery tail of `SD_SPI_Init` records its
status. -/
theorem sdInitDiscover_last (h1 : SD_Handle) (r : Nat) (s : St) :
    (sdInitDiscover h1 r s).2.1.last_status = (sdInitDiscover h1 r s).1 := by
  simp only [sdInitDiscover]
  split_ifs <;> simp [SD_RecordStatus, sdInitFinish_last]

set_option maxRecDepth 8192 in
set_option maxHeartbeats 1600000 in
/-- C9 (amended): after `SD_SPI_Init`, `SD_ReadBlocks`, `SD_WriteBlocks`,
`SD_ReadMultiBlocks`, `SD_WriteMultiBlocks` and `SD_Sync` on a non-NULL
handle, `last_status` equals the returned status, for every input and
every bus; the same holds for `SD_Init` except on its
parameter-rejection path (NULL `hspi` or NULL `cs_port`), which returns
`SD_PARAM` and leaves the handle untouched. -/
theorem sd_c9_last_status_amended :
    (∀ (h : SD_Handle) (pin : Bool) (lock : SD_Status) (s : St),
      (SD_SPI_Init h pin lock s).2.1.last_status = (SD_SPI_Init h pin lock s).1) ∧
    (∀ (h : SD_Handle) (bn al : Bool) (sector count : Nat) (pin : Bool)
        (lock : SD_Status) (s : St),
      (SD_ReadBlocks h bn al sector count pin lock s).2.1.last_status =
        (SD_ReadBlocks h bn al sector count pin lock s).1) ∧
    (∀ (h : SD_Handle) (bn al : Bool) (sector count : Nat) (pin : Bool)
        (lock : SD_Status) (s : St),
      (SD_WriteBlocks h bn al sector count pin lock s).2.1.last_status =
        (SD_WriteBlocks h bn al sector count pin lock s).1) ∧
    (∀ (h : SD_Handle) (bn al : Bool) (sector count : Nat) (pin : Bool)
        (lock : SD_Status) (s : St),
      (SD_ReadMultiBlocks h bn al sector count pin lock s).2.1.last_status =
        (SD_ReadMultiBlocks h bn al sector count pin lock s).1) ∧
    (∀ (h : SD_Handle) (bn al : Bool) (sector count : Nat) (pin : Bool)
        (lock : SD_Status) (s : St),
      (SD_WriteMultiBlocks h bn al sector count pin lock s).2.1.last_status =
        (SD_WriteMultiBlocks h bn al sector count pin lock s).1) ∧
    (∀ (h : SD_Handle) (pin : Bool) (lock : SD_Status) (s : St),
      (SD_Sync h pin lock s).2.1.last_status = (SD_Sync h pin lock s).1) ∧
    (∀ (h : SD_Handle) (dma sem : Bool),
      (SD_Init h false false dma sem).2.last_status =
        (SD_Init h false false dma sem).1) ∧
    (∀ (h : SD_Handle) (cn dma sem : Bool), SD_Init h true cn dma sem = (SD_PARAM, h)) ∧
    (∀ (h : SD_Handle) (dma sem : Bool), SD_Init h false true dma sem = (SD_PARAM, h)) := by
  have hrec : ∀ (h1 : SD_Handle) (st : SD_Status), (SD_RecordStatus h1 st).2.last_status = st :=
    recordStatus_last
  refine ⟨fun h pin lock s => ?_,
    fun h bn al sector count pin lock s => ?_,
    fun h bn al sector count pin lock s => ?_,
    fun h bn al sector count pin lock s => ?_,
    fun h bn al sector count pin lock s => ?_,
    fun h pin lock s => ?_,
    fun h dma sem => ?_, fun h cn dma sem => ?_, fun h dma sem => ?_⟩
  · simp only [SD_SPI_Init]
    split_ifs <;> simp [hrec, recordStatus_fst, sdInitDiscover_last]
  · simp only [SD_ReadBlocks]
    split_ifs <;> simp [SD_RecordStatus]
  · simp only [SD_WriteBlocks]
    split_ifs <;> simp [SD_RecordStatus]
  · simp only [SD_ReadMultiBlocks]
    split_ifs <;> simp [SD_RecordStatus]
  · simp only [SD_WriteMultiBlocks]
    split_ifs <;> simp [SD_RecordStatus]
  · simp only [SD_Sync]
    split_ifs <;> simp [SD_RecordStatus]
  · cases sem <;> simp [SD_Init, SD_RecordStatus]
  · simp [SD_Init]
  · simp [SD_Init]

/-- The single-block read retry loop stops at a first attempt that
succeeds, for any remaining retry budget. -/
theorem readRetryGo_hit (h : SD_Handle) (al : Bool) (addr fuel : Nat)
    (rest : List SpiByte) (tr : List Ev) :
    readRetryGo h al addr fuel ⟨busRS ++ rest, tr⟩ =
      (SD_OK, ⟨rest, tr ++ readSingleEvs addr (h.use_dma && al)⟩) := by
  cases fuel <;> simp [readRetryGo, readSingle_ok]

/-- The single-block write retry loop stops at a first attempt that
succeeds, for any remaining retry budget. -/
theorem writeRetryGo_hit (h : SD_Handle) (al : Bool) (addr fuel : Nat)
    (rest : List SpiByte) (tr : List Ev) :
    writeRetryGo h al addr fuel ⟨busWSok ++ rest, tr⟩ =
      (SD_OK, ⟨rest, tr ++ writeSingleEvs addr (h.use_dma && al)⟩) := by
  cases fuel <;> simp [writeRetryGo, writeSingle_ok]

/-- A failed attempt (R1 = 0x04) consumes one retry and is followed by
the ~1 ms backoff. -/
theorem readRetryGo_failStep (h : SD_Handle) (al : Bool) (addr f : Nat)
    (rest : List SpiByte) (tr : List Ev) :
    readRetryGo h al addr (f + 1) ⟨busAttemptFail ++ rest, tr⟩ =
      readRetryGo h al addr f ⟨rest, tr ++ readFailEvs addr ++ [Ev.backoff]⟩ := by
  simp [readRetryGo, readSingle_fail04, SD_BackoffDelay]

/-- The last allowed attempt fails (R1 = 0x04): the loop returns that
failure after the final backoff. -/
theorem readRetryGo_failLast (h : SD_Handle) (al : Bool) (addr : Nat)
    (rest : List SpiByte) (tr : List Ev) :
    readRetryGo h al addr 0 ⟨busAttemptFail ++ rest, tr⟩ =
      (SD_ERROR, ⟨rest, tr ++ readFailEvs addr ++ [Ev.backoff]⟩) := by
  simp [readRetryGo, readSingle_fail04, SD_BackoffDelay]

/-- A failed write attempt (R1 = 0x04) consumes one retry and is
followed by the ~1 ms backoff. -/
theorem writeRetryGo_failStep (h : SD_Handle) (al : Bool) (addr f : Nat)
    (rest : List SpiByte) (tr : List Ev) :
    writeRetryGo h al addr (f + 1) ⟨busAttemptFail ++ rest, tr⟩ =
      writeRetryGo h al addr f ⟨rest, tr ++ writeFailEvs addr ++ [Ev.backoff]⟩ := by
  simp [writeRetryGo, writeSingle_fail04, SD_BackoffDelay]

/-- The last allowed write attempt fails (R1 = 0x04): the loop returns
that failure after the final backoff. -/
theorem writeRetryGo_failLast (h : SD_Handle) (al : Bool) (addr : Nat)
    (rest : List SpiByte) (tr : List Ev) :
    writeRetryGo h al addr 0 ⟨busAttemptFail ++ rest, tr⟩ =
      (SD_ERROR, ⟨rest, tr ++ writeFailEvs addr ++ [Ev.backoff]⟩) := by
  simp [writeRetryGo, writeSingle_fail04, SD_BackoffDelay]

/-- C1 (counterexample): the write data-response classification is not a
function of the low 5 bits of the response byte.  0x0B and 0x2B have the
same low 5 bits, yet a single-block write that receives data response
0x0B returns `SD_CRC_ERROR` while one that receives 0x2B returns
`SD_WRITE_ERROR` (the code compares the whole byte against 0x0B). -/
theorem sd_c1_counterexample :
    (0x2B &&& 0x1F : Nat) = (0x0B &&& 0x1F : Nat) ∧
    (SD_WriteSingleBlockInternal
        ⟨false, false, true, true, false, SD_OK, 100, 512, zeroStats⟩
        false 5 (busWS 0x0B)).1 = SD_CRC_ERROR ∧
    (SD_WriteSingleBlockInternal
        ⟨false, false, true, true, false, SD_OK, 100, 512, zeroStats⟩
        false 5 (busWS 0x2B)).1 = SD_WRITE_ERROR ∧
    SD_CRC_ERROR ≠ SD_WRITE_ERROR :=
  ⟨by decide, by decide, by decide, by decide⟩

/-- C1 (amended): for a write data response byte `r` after a CMD24 or
CMD25 payload, acceptance is decided on the low 5 bits
(`r & 0x1F == 0x05`); a non-accepted response returns `SD_CRC_ERROR`
when the full byte equals 0x0B, and `SD_WRITE_ERROR` for every other
non-accepted byte (0x0D included). -/
theorem sd_c1_write_response_amended :
    (∀ (h : SD_Handle) (al : Bool) (addr r : Nat), r < 256 → r &&& 0x1F ≠ 0x05 →
      (SD_WriteSingleBlockInternal h al addr (busWS r)).1 =
        if r = 0x0B then SD_CRC_ERROR else SD_WRITE_ERROR) ∧
    (∀ (h : SD_Handle) (al : Bool) (addr r : Nat), r < 256 → r &&& 0x1F = 0x05 →
      (SD_WriteSingleBlockInternal h al addr (busWS r)).1 = SD_OK) ∧
    (∀ (h : SD_Handle) (al : Bool) (sector r : Nat), r < 256 → r &&& 0x1F ≠ 0x05 →
      (SD_WriteMultiBlocksInternal (some { h with initialized := true })
          false al sector 1 (busWM r)).1 =
        if r = 0x0B then SD_CRC_ERROR else SD_WRITE_ERROR) ∧
    (∀ (h : SD_Handle) (al : Bool) (sector r : Nat), r < 256 → r &&& 0x1F = 0x05 →
      (SD_WriteMultiBlocksInternal (some { h with initialized := true })
          false al sector 1 (busWM r)).1 = SD_OK) := by
  have hs : ∀ (h : SD_Handle) (al : Bool) (addr r : Nat), r < 256 →
      (SD_WriteSingleBlockInternal h al addr (busWS r)).1 =
        (if r &&& SD_DATA_RESP_MASK = SD_DATA_RESP_ACCEPTED then SD_OK
         else if r = SD_DATA_RESP_CRC_ERR then SD_CRC_ERROR else SD_WRITE_ERROR) := by
    intro h al addr r hb
    have := writeSingle_resp_status h al addr r [] [] hb
    simpa [busWS] using this
  have hm : ∀ (h : SD_Handle) (al : Bool) (sector r : Nat), r < 256 →
      (SD_WriteMultiBlocksInternal (some { h with initialized := true })
          false al sector 1 (busWM r)).1 =
        (if r &&& SD_DATA_RESP_MASK = SD_DATA_RESP_ACCEPTED then SD_OK
         else if r = SD_DATA_RESP_CRC_ERR then SD_CRC_ERROR else SD_WRITE_ERROR) := by
    intro h al sector r hb
    have := writeMulti1_resp_status { h with initialized := true } al sector r [] [] hb rfl
    simpa [busWM] using this
  refine ⟨fun h al addr r hb hr => ?_, fun h al addr r hb hr => ?_,
    fun h al sector r hb hr => ?_, fun h al sector r hb hr => ?_⟩
  · rw [hs h al addr r hb]
    simp [SD_DATA_RESP_MASK, SD_DATA_RESP_ACCEPTED, SD_DATA_RESP_CRC_ERR, hr]
  · rw [hs h al addr r hb]
    simp [SD_DATA_RESP_MASK, SD_DATA_RESP_ACCEPTED, hr]
  · rw [hm h al sector r hb]
    simp [SD_DATA_RESP_MASK, SD_DATA_RESP_ACCEPTED, SD_DATA_RESP_CRC_ERR, hr]
  · rw [hm h al sector r hb]
    simp [SD_DATA_RESP_MASK, SD_DATA_RESP_ACCEPTED, hr]

/-- C1 witness: the amended classification at concrete inputs — 0x0D is
rejected as `SD_WRITE_ERROR`, 0x0B as `SD_CRC_ERROR`, 0x05 is accepted,
and on the multi-block path 0x2B (low 5 bits 0x0B) is rejected as
`SD_WRITE_ERROR`. -/
theorem sd_c1_write_response_amended_witness :
    ((0x0D : Nat) < 256 ∧ (0x0D &&& 0x1F : Nat) ≠ 0x05 ∧
      (SD_WriteSingleBlockInternal
          ⟨false, false, true, true, false, SD_OK, 100, 512, zeroStats⟩
          false 5 (busWS 0x0D)).1 =
        if (0x0D : Nat) = 0x0B then SD_CRC_ERROR else SD_WRITE_ERROR) ∧
    ((0x05 : Nat) < 256 ∧ (0x05 &&& 0x1F : Nat) = 0x05 ∧
      (SD_WriteSingleBlockInternal
          ⟨false, false, true, true, false, SD_OK, 100, 512, zeroStats⟩
          false 5 (busWS 0x05)).1 = SD_OK) ∧
    ((0x2B : Nat) < 256 ∧ (0x2B &&& 0x1F : Nat) ≠ 0x05 ∧
      (SD_WriteMultiBlocksInternal
          (some { (⟨false, false, false, true, false, SD_OK, 100, 512, zeroStats⟩ :
            SD_Handle) with initialized := true })
          false false 9 1 (busWM 0x2B)).1 =
        if (0x2B : Nat) = 0x0B then SD_CRC_ERROR else SD_WRITE_ERROR) :=
  ⟨⟨by decide, by decide,
      sd_c1_write_response_amended.1
        ⟨false, false, true, true, false, SD_OK, 100, 512, zeroStats⟩
        false 5 0x0D (by decide) (by decide)⟩,
    ⟨by decide, by decide,
      sd_c1_write_response_amended.2.1
        ⟨false, false, true, true, false, SD_OK, 100, 512, zeroStats⟩
        false 5 0x05 (by decide) (by decide)⟩,
    ⟨by decide, by decide,
      sd_c1_write_response_amended.2.2.1
        ⟨false, false, false, true, false, SD_OK, 100, 512, zeroStats⟩
        false 9 0x2B (by decide) (by decide)⟩⟩

/-- C4: the address translation and the address on the wire.  The
effective address is `sector` on SDHC and `sector × 512` in `uint32_t`
arithmetic on SDSC, and on a successfully initialized handle (any
`is_sdhc`, any DMA policy, any sector) it is exactly what the 32-bit
argument of the CMD17 / CMD24 / CMD18 / CMD25 packet on the wire encodes,
as shown by the full event traces of successful single-block reads and
writes (`count = 1`) and two-block multi reads and writes. -/
theorem sd_c4_addressing :
    (∀ sector : Nat, sd_effectiveAddress true sector = sector) ∧
    (∀ sector : Nat, sd_effectiveAddress false sector = sector * 512 % 2 ^ 32) ∧
    (∀ (h : SD_Handle) (al : Bool) (sector : Nat),
      (SD_ReadBlocks { h with initialized := true, has_cd := false }
          false al sector 1 true SD_OK ⟨busRS, []⟩).1 = SD_OK ∧
      (SD_ReadBlocks { h with initialized := true, has_cd := false }
          false al sector 1 true SD_OK ⟨busRS, []⟩).2.2 =
        ⟨[], readSingleEvs (sd_effectiveAddress h.is_sdhc sector) (h.use_dma && al)⟩) ∧
    (∀ (h : SD_Handle) (al : Bool) (sector : Nat),
      (SD_WriteBlocks { h with initialized := true, has_cd := false }
          false al sector 1 true SD_OK ⟨busWSok, []⟩).1 = SD_OK ∧
      (SD_WriteBlocks { h with initialized := true, has_cd := false }
          false al sector 1 true SD_OK ⟨busWSok, []⟩).2.2 =
        ⟨[], writeSingleEvs (sd_effectiveAddress h.is_sdhc sector) (h.use_dma && al)⟩) ∧
    (∀ (h : SD_Handle) (al : Bool) (sector : Nat),
      (SD_ReadBlocks { h with initialized := true, has_cd := false }
          false al sector 2 true SD_OK ⟨busRM2, []⟩).1 = SD_OK ∧
      (SD_ReadBlocks { h with initialized := true, has_cd := false }
          false al sector 2 true SD_OK ⟨busRM2, []⟩).2.2 =
        ⟨[], readMulti2Evs (sd_effectiveAddress h.is_sdhc sector) (h.use_dma && al)⟩) ∧
    (∀ (h : SD_Handle) (al : Bool) (sector : Nat),
      (SD_WriteBlocks { h with initialized := true, has_cd := false }
          false al sector 2 true SD_OK ⟨busWM2, []⟩).1 = SD_OK ∧
      (SD_WriteBlocks { h with initialized := true, has_cd := false }
          false al sector 2 true SD_OK ⟨busWM2, []⟩).2.2 =
        ⟨[], writeMulti2Evs (sd_effectiveAddress h.is_sdhc sector) (h.use_dma && al)⟩) := by
  have hR : ∀ (hh : SD_Handle) (al : Bool) (addr fuel : Nat),
      readRetryGo hh al addr fuel ⟨busRS, []⟩ =
        (SD_OK, ⟨[], readSingleEvs addr (hh.use_dma && al)⟩) := by
    intro hh al addr fuel
    have := readRetryGo_hit hh al addr fuel [] []
    simpa using this
  have hW : ∀ (hh : SD_Handle) (al : Bool) (addr fuel : Nat),
      writeRetryGo hh al addr fuel ⟨busWSok, []⟩ =
        (SD_OK, ⟨[], writeSingleEvs addr (hh.use_dma && al)⟩) := by
    intro hh al addr fuel
    have := writeRetryGo_hit hh al addr fuel [] []
    simpa using this
  have hRM : ∀ (hh : SD_Handle) (al : Bool) (sector : Nat),
      hh.initialized = true →
      SD_ReadMultiBlocksInternal (some hh) false al sector 2 ⟨busRM2, []⟩ =
        (SD_OK, ⟨[], readMulti2Evs (sd_effectiveAddress hh.is_sdhc sector)
          (hh.use_dma && al)⟩) := by
    intro hh al sector hi
    have := readMulti2_ok hh al sector [] [] hi
    simpa using this
  have hWM : ∀ (hh : SD_Handle) (al : Bool) (sector : Nat),
      hh.initialized = true →
      SD_WriteMultiBlocksInternal (some hh) false al sector 2 ⟨busWM2, []⟩ =
        (SD_OK, ⟨[], writeMulti2Evs (sd_effectiveAddress hh.is_sdhc sector)
          (hh.use_dma && al)⟩) := by
    intro hh al sector hi
    have := writeMulti2_ok hh al sector [] [] hi
    simpa using this
  refine ⟨fun sector => rfl, fun sector => rfl,
    fun h al sector => ?_, fun h al sector => ?_,
    fun h al sector => ?_, fun h al sector => ?_⟩
  · simp only [SD_ReadBlocks, SD_IsCardPresent, SD_MAX_RETRIES]
    simp [hR, SD_RecordStatus]
  · simp only [SD_WriteBlocks, SD_IsCardPresent, SD_MAX_RETRIES]
    simp [hW, SD_RecordStatus]
  · simp only [SD_ReadBlocks, SD_IsCardPresent]
    simp [hRM, SD_RecordStatus]
  · simp only [SD_WriteBlocks, SD_IsCardPresent]
    simp [hWM, SD_RecordStatus]

/-- C7: the retry policy.  With `SD_MAX_RETRIES = 2`, a single-block
(`count = 1`) read or write performs `SD_MAX_RETRIES + 1 = 3` bracketed
attempts when every attempt fails, with a ~1 ms backoff after each
failure, and returns the failure; a first retry that succeeds ends the
loop (two brackets only, result `SD_OK`) — shown for `SD_ReadBlocks` and
`SD_WriteBlocks` alike.  A multi-block operation (`count ≥ 2`, any
count) is never retried: the first failing block breaks the per-block
loop, the terminating action is still issued (CMD12 for reads, the 0xFD
stop token for writes — visible in the trace), and the failing block's
status is returned. -/
theorem sd_c7_retry_policy :
    SD_MAX_RETRIES = 2 ∧
    (∀ (h : SD_Handle) (al : Bool) (sector : Nat),
      (SD_ReadBlocks { h with initialized := true, has_cd := false }
          false al sector 1 true SD_OK
          ⟨busAttemptFail ++ (busAttemptFail ++ busAttemptFail), []⟩).1 = SD_ERROR ∧
      (SD_ReadBlocks { h with initialized := true, has_cd := false }
          false al sector 1 true SD_OK
          ⟨busAttemptFail ++ (busAttemptFail ++ busAttemptFail), []⟩).2.2 =
        ⟨[], readFailEvs (sd_effectiveAddress h.is_sdhc sector) ++ [Ev.backoff]
          ++ readFailEvs (sd_effectiveAddress h.is_sdhc sector) ++ [Ev.backoff]
          ++ readFailEvs (sd_effectiveAddress h.is_sdhc sector) ++ [Ev.backoff]⟩) ∧
    (∀ (h : SD_Handle) (al : Bool) (sector : Nat),
      (SD_ReadBlocks { h with initialized := true, has_cd := false }
          false al sector 1 true SD_OK ⟨busAttemptFail ++ busRS, []⟩).1 = SD_OK ∧
      (SD_ReadBlocks { h with initialized := true, has_cd := false }
          false al sector 1 true SD_OK ⟨busAttemptFail ++ busRS, []⟩).2.2 =
        ⟨[], readFailEvs (sd_effectiveAddress h.is_sdhc sector) ++ [Ev.backoff]
          ++ readSingleEvs (sd_effectiveAddress h.is_sdhc sector) (h.use_dma && al)⟩) ∧
    (∀ (h : SD_Handle) (al : Bool) (sector : Nat),
      (SD_WriteBlocks { h with initialized := true, has_cd := false }
          false al sector 1 true SD_OK
          ⟨busAttemptFail ++ (busAttemptFail ++ busAttemptFail), []⟩).1 = SD_ERROR ∧
      (SD_WriteBlocks { h with initialized := true, has_cd := false }
          false al sector 1 true SD_OK
          ⟨busAttemptFail ++ (busAttemptFail ++ busAttemptFail), []⟩).2.2 =
        ⟨[], writeFailEvs (sd_effectiveAddress h.is_sdhc sector) ++ [Ev.backoff]
          ++ writeFailEvs (sd_effectiveAddress h.is_sdhc sector) ++ [Ev.backoff]
          ++ writeFailEvs (sd_effectiveAddress h.is_sdhc sector) ++ [Ev.backoff]⟩) ∧
    (∀ (h : SD_Handle) (al : Bool) (sector : Nat),
      (SD_WriteBlocks { h with initialized := true, has_cd := false }
          false al sector 1 true SD_OK ⟨busAttemptFail ++ busWSok, []⟩).1 = SD_OK ∧
      (SD_WriteBlocks { h with initialized := true, has_cd := false }
          false al sector 1 true SD_OK ⟨busAttemptFail ++ busWSok, []⟩).2.2 =
        ⟨[], writeFailEvs (sd_effectiveAddress h.is_sdhc sector) ++ [Ev.backoff]
          ++ writeSingleEvs (sd_effectiveAddress h.is_sdhc sector) (h.use_dma && al)⟩) ∧
    (∀ (h : SD_Handle) (al : Bool) (sector n : Nat),
      (SD_ReadBlocks { h with initialized := true, has_cd := false }
          false al sector (n + 2) true SD_OK ⟨busMRtokErr, []⟩).1 = SD_ERROR ∧
      (SD_ReadBlocks { h with initialized := true, has_cd := false }
          false al sector (n + 2) true SD_OK ⟨busMRtokErr, []⟩).2.2 =
        ⟨[], mrTokErrEvs (sd_effectiveAddress h.is_sdhc sector)⟩) ∧
    (∀ (h : SD_Handle) (al : Bool) (sector n : Nat),
      (SD_WriteBlocks { h with initialized := true, has_cd := false }
          false al sector (n + 2) true SD_OK ⟨busMWrej, []⟩).1 = SD_WRITE_ERROR ∧
      (SD_WriteBlocks { h with initialized := true, has_cd := false }
          false al sector (n + 2) true SD_OK ⟨busMWrej, []⟩).2.2 =
        ⟨[], mwRejEvs (sd_effectiveAddress h.is_sdhc sector) (h.use_dma && al)⟩) := by
  have hFail3 : ∀ (hh : SD_Handle) (al : Bool) (addr : Nat),
      readRetryGo hh al addr 2 ⟨busAttemptFail ++ (busAttemptFail ++ busAttemptFail), []⟩ =
        (SD_ERROR, ⟨[], readFailEvs addr ++ [Ev.backoff] ++ readFailEvs addr
          ++ [Ev.backoff] ++ readFailEvs addr ++ [Ev.backoff]⟩) := by
    intro hh al addr
    rw [show (2 : Nat) = 1 + 1 from rfl, readRetryGo_failStep,
      readRetryGo_failStep]
    rw [show busAttemptFail = busAttemptFail ++ ([] : List SpiByte) by simp,
      readRetryGo_failLast]
    simp [List.append_assoc]
  have hFailHit : ∀ (hh : SD_Handle) (al : Bool) (addr : Nat),
      readRetryGo hh al addr 2 ⟨busAttemptFail ++ busRS, []⟩ =
        (SD_OK, ⟨[], readFailEvs addr ++ [Ev.backoff]
          ++ readSingleEvs addr (hh.use_dma && al)⟩) := by
    intro hh al addr
    rw [show (2 : Nat) = 1 + 1 from rfl, readRetryGo_failStep]
    rw [show busRS = busRS ++ ([] : List SpiByte) by simp, readRetryGo_hit]
    simp [List.append_assoc]
  have hFail3W : ∀ (hh : SD_Handle) (al : Bool) (addr : Nat),
      writeRetryGo hh al addr 2 ⟨busAttemptFail ++ (busAttemptFail ++ busAttemptFail), []⟩ =
        (SD_ERROR, ⟨[], writeFailEvs addr ++ [Ev.backoff] ++ writeFailEvs addr
          ++ [Ev.backoff] ++ writeFailEvs addr ++ [Ev.backoff]⟩) := by
    intro hh al addr
    rw [show (2 : Nat) = 1 + 1 from rfl, writeRetryGo_failStep,
      writeRetryGo_failStep]
    rw [show busAttemptFail = busAttemptFail ++ ([] : List SpiByte) by simp,
      writeRetryGo_failLast]
    simp [List.append_assoc]
  have hFailHitW : ∀ (hh : SD_Handle) (al : Bool) (addr : Nat),
      writeRetryGo hh al addr 2 ⟨busAttemptFail ++ busWSok, []⟩ =
        (SD_OK, ⟨[], writeFailEvs addr ++ [Ev.backoff]
          ++ writeSingleEvs addr (hh.use_dma && al)⟩) := by
    intro hh al addr
    rw [show (2 : Nat) = 1 + 1 from rfl, writeRetryGo_failStep]
    rw [show busWSok = busWSok ++ ([] : List SpiByte) by simp, writeRetryGo_hit]
    simp [List.append_assoc]
  have hMR : ∀ (hh : SD_Handle) (al : Bool) (sector n : Nat),
      hh.initialized = true →
      SD_ReadMultiBlocksInternal (some hh) false al sector (n + 2) ⟨busMRtokErr, []⟩ =
        (SD_ERROR, ⟨[], mrTokErrEvs (sd_effectiveAddress hh.is_sdhc sector)⟩) := by
    intro hh al sector n hi
    have := readMulti_tokErr hh al sector n [] [] hi
    simpa using this
  have hMW : ∀ (hh : SD_Handle) (al : Bool) (sector n : Nat),
      hh.initialized = true →
      SD_WriteMultiBlocksInternal (some hh) false al sector (n + 2) ⟨busMWrej, []⟩ =
        (SD_WRITE_ERROR, ⟨[], mwRejEvs (sd_effectiveAddress hh.is_sdhc sector)
          (hh.use_dma && al)⟩) := by
    intro hh al sector n hi
    have := writeMulti_rej hh al sector n [] [] hi
    simpa using this
  refine ⟨rfl, fun h al sector => ?_, fun h al sector => ?_,
    fun h al sector => ?_, fun h al sector => ?_,
    fun h al sector n => ?_, fun h al sector n => ?_⟩
  · simp only [SD_ReadBlocks, SD_IsCardPresent, SD_MAX_RETRIES]
    simp [hFail3, SD_RecordStatus, List.append_assoc]
  · simp only [SD_ReadBlocks, SD_IsCardPresent, SD_MAX_RETRIES]
    simp [hFailHit, SD_RecordStatus, List.append_assoc]
  · simp only [SD_WriteBlocks, SD_IsCardPresent, SD_MAX_RETRIES]
    simp [hFail3W, SD_RecordStatus, List.append_assoc]
  · simp only [SD_WriteBlocks, SD_IsCardPresent, SD_MAX_RETRIES]
    simp [hFailHitW, SD_RecordStatus, List.append_assoc]
  · simp only [SD_ReadBlocks, SD_IsCardPresent]
    rw [if_neg (by simp : ¬ (false = true ∨ n + 2 = 0))]
    simp [hMR, SD_RecordStatus, if_neg (by omega : ¬ (n + 2 = 1))]
  · simp only [SD_WriteBlocks, SD_IsCardPresent]
    rw [if_neg (by simp : ¬ (false = true ∨ n + 2 = 0))]
    simp [hMW, SD_RecordStatus, if_neg (by omega : ¬ (n + 2 = 1))]

/-- After an immediate ready byte and seven successful transmits,
`SD_SendCommand` reduces to the 10-poll response loop, having put exactly
the dummy 0xFF and the 6-byte packet on the wire. -/
theorem sendCommand_frame (cmd arg crc r0 : Nat) (bus : List SpiByte) (tr : List Ev) :
    SD_SendCommand cmd arg crc r0
        ⟨rdy :: okB :: okB :: okB :: okB :: okB :: okB :: okB :: bus, tr⟩ =
      respPollGo 10 r0 ⟨bus, tr ++ [Ev.rx 0xFF] ++ cmdPacket cmd arg crc⟩ := by
  simp only [SD_SendCommand, SD_WaitReady, waitReadyGo_ready]
  simp [SD_TransmitByte, spiNext, SD_FromHalStatus, cmdPacket, List.append_assoc]

/-- C6: `SD_SendCommand` framing and response policy.  (A) With the card
immediately ready, the bytes driven are one dummy 0xFF then the 6-byte
packet `0x40|cmd, arg[31:24], arg[23:16], arg[15:8], arg[7:0], crc`,
after which the driver is in the 10-poll response loop.  (B) The ready
wait is bounded by `SD_CMD_TIMEOUT_MS`: a card busy for the whole
deadline yields `SD_TIMEOUT` with nothing transmitted.  (C) Ten polled
bytes with the MSB set yield `SD_TIMEOUT` (the caller's response variable
unchanged).  (D) The first polled byte with the MSB clear — within the
10 polls — is returned as the R1 response with `SD_OK`.  (E) Of all
`SD_SendCommand` call sites, only CMD0 (0x95) and CMD8 (0x87) pass a CRC
other than 0xFF. -/
theorem sd_c6_send_command :
    (∀ (cmd arg crc r0 : Nat) (bus : List SpiByte) (tr : List Ev),
      SD_SendCommand cmd arg crc r0
          ⟨rdy :: okB :: okB :: okB :: okB :: okB :: okB :: okB :: bus, tr⟩ =
        respPollGo 10 r0 ⟨bus, tr ++ [Ev.rx 0xFF] ++ cmdPacket cmd arg crc⟩) ∧
    (∀ (cmd arg crc r0 : Nat) (rest : List SpiByte) (tr : List Ev),
      SD_SendCommand cmd arg crc r0
          ⟨List.replicate (SD_CMD_TIMEOUT_MS + 1) (rB 0) ++ rest, tr⟩ =
        (SD_TIMEOUT, r0, ⟨rest, tr ++ busyEvs (SD_CMD_TIMEOUT_MS + 1)⟩)) ∧
    (∀ (cmd arg crc r0 : Nat) (bs : List Nat) (rest : List SpiByte) (tr : List Ev),
      (∀ b ∈ bs, b < 256 ∧ b &&& 0x80 ≠ 0) → bs.length = 10 →
      SD_SendCommand cmd arg crc r0
          ⟨rdy :: okB :: okB :: okB :: okB :: okB :: okB :: okB :: (bs.map rB ++ rest), tr⟩ =
        (SD_TIMEOUT, r0,
          ⟨rest, tr ++ [Ev.rx 0xFF] ++ cmdPacket cmd arg crc ++ bs.map Ev.rx⟩)) ∧
    (∀ (cmd arg crc r0 r : Nat) (bs : List Nat) (rest : List SpiByte) (tr : List Ev),
      (∀ b ∈ bs, b < 256 ∧ b &&& 0x80 ≠ 0) → bs.length ≤ 9 → r < 256 → r &&& 0x80 = 0 →
      SD_SendCommand cmd arg crc r0
          ⟨rdy :: okB :: okB :: okB :: okB :: okB :: okB :: okB ::
            (bs.map rB ++ rB r :: rest), tr⟩ =
        (SD_OK, r,
          ⟨rest, tr ++ [Ev.rx 0xFF] ++ cmdPacket cmd arg crc ++ bs.map Ev.rx
            ++ [Ev.rx r]⟩)) ∧
    ((driverCmdCrcTable.all fun p =>
        p.2 == 0xFF || (p.1 == CMD0 && p.2 == 0x95) || (p.1 == CMD8 && p.2 == 0x87)) = true ∧
      (CMD0, 0x95) ∈ driverCmdCrcTable ∧ (CMD8, 0x87) ∈ driverCmdCrcTable) := by
  refine ⟨fun cmd arg crc r0 bus tr => sendCommand_frame cmd arg crc r0 bus tr,
    fun cmd arg crc r0 rest tr => ?_,
    fun cmd arg crc r0 bs rest tr hall hlen => ?_,
    fun cmd arg crc r0 r bs rest tr hall hlen hr hm => ?_,
    by decide, by decide, by decide⟩
  · simp only [SD_SendCommand, SD_WaitReady, waitReadyGo_busy_run]
    simp
  · rw [sendCommand_frame, ← hlen,
      respPollGo_allBusy bs r0 rest _ hall]
  · rw [sendCommand_frame,
      show (10 : Nat) = bs.length + ((9 - bs.length) + 1) by omega,
      respPollGo_prefix_hit bs (9 - bs.length) r0 r rest _ hall hr hm]

/-- C6 witness: the hypothesis-bearing parts at concrete inputs — ten
0x80 polls time out for CMD17, and a first-poll 0x01 is returned as R1
for CMD0 after a 0x81 busy poll. -/
theorem sd_c6_send_command_witness :
    ((∀ b ∈ ([0x80, 0x80, 0x80, 0x80, 0x80, 0x80, 0x80, 0x80, 0x80, 0x80] : List Nat),
        b < 256 ∧ b &&& 0x80 ≠ 0) ∧
      ([0x80, 0x80, 0x80, 0x80, 0x80, 0x80, 0x80, 0x80, 0x80, 0x80] : List Nat).length = 10 ∧
      SD_SendCommand CMD17 9 0xFF 0xFF
          ⟨rdy :: okB :: okB :: okB :: okB :: okB :: okB :: okB ::
            (([0x80, 0x80, 0x80, 0x80, 0x80, 0x80, 0x80, 0x80, 0x80, 0x80] :
              List Nat).map rB ++ []), []⟩ =
        (SD_TIMEOUT, 0xFF,
          ⟨[], [] ++ [Ev.rx 0xFF] ++ cmdPacket CMD17 9 0xFF
            ++ ([0x80, 0x80, 0x80, 0x80, 0x80, 0x80, 0x80, 0x80, 0x80, 0x80] :
              List Nat).map Ev.rx⟩)) ∧
    ((∀ b ∈ ([0x81] : List Nat), b < 256 ∧ b &&& 0x80 ≠ 0) ∧
      ([0x81] : List Nat).length ≤ 9 ∧ (0x01 : Nat) < 256 ∧ (0x01 &&& 0x80 : Nat) = 0 ∧
      SD_SendCommand CMD0 0 0x95 0xFF
          ⟨rdy :: okB :: okB :: okB :: okB :: okB :: okB :: okB ::
            (([0x81] : List Nat).map rB ++ rB 0x01 :: []), []⟩ =
        (SD_OK, 0x01,
          ⟨[], [] ++ [Ev.rx 0xFF] ++ cmdPacket CMD0 0 0x95
            ++ ([0x81] : List Nat).map Ev.rx ++ [Ev.rx 0x01]⟩)) :=
  ⟨⟨by decide, by decide,
      sd_c6_send_command.2.2.1 CMD17 9 0xFF 0xFF
        [0x80, 0x80, 0x80, 0x80, 0x80, 0x80, 0x80, 0x80, 0x80, 0x80] [] []
        (by decide) (by decide)⟩,
    ⟨by decide, by decide, by decide, by decide,
      sd_c6_send_command.2.2.2.1 CMD0 0 0x95 0xFF 0x01 [0x81] [] []
        (by decide) (by decide) (by decide) (by decide)⟩⟩

end SdSpi
